import Mathlib

/-!
# MqttClient: connection lifecycle, telemetry and Home Assistant discovery

A shallow embedding of `src/MqttClient.cpp` / `src/MqttClient.h`.

Modelling conventions

* `MqttClient` holds the fields of the C++ class. Its `client` member (the
  `PubSubClient` session) is reduced to what the class observes of it: whether
  the session is connected and the endpoint bound with `setServer`.
* `Sim` pairs the object with its environment: a script of link events, the
  list of calls made on the broker session (`out`), and a ghost list of the
  `millis()` readings at which `loop()` called `reconnect()`.
* The link can be lost during every blocking call on the session
  (`publish`, `subscribe`, `client.loop()`) and during `delay`; each such call
  consumes one event of the script. `client.connected()` reads the session
  flag. A session that is lost stays lost until `client.connect` succeeds.
* `millis()`, `WiFi.isConnected()` and the broker's answer to `connect` are
  parameters of `loop`.
* `unsigned long` is 32 bits wide; `int` values are mathematical integers (no
  arithmetic is performed on them).
* `logger` calls are diagnostic only and are not modelled. The capacity of the
  `StaticJsonDocument` buffers is taken to be sufficient.
-/

/-! ## JSON documents (ArduinoJson) -/

/-- A JSON value as stored in an ArduinoJson document. Objects keep their
members in insertion order. -/
inductive JsonVariant where
  | str (s : String)
  | int (n : Int)
  | obj (members : List (String × JsonVariant))
  | arr (items : List JsonVariant)

/-- Members of a JSON object, in insertion order. -/
abbrev JsonObject := List (String × JsonVariant)

/-- Assignment `obj[k] = v`: replaces the value of an existing key, appends a
new member otherwise. -/
def JsonObject.set : JsonObject → String → JsonVariant → JsonObject
  | [], k, v => [(k, v)]
  | (k', v') :: rest, k, v =>
    if k' = k then (k, v) :: rest else (k', v') :: JsonObject.set rest k v

/-- Lookup `obj[k]`. -/
def JsonObject.get : JsonObject → String → Option JsonVariant
  | [], _ => none
  | (k', v') :: rest, k => if k' = k then some v' else JsonObject.get rest k

/-- Keys of an object, in order. -/
def JsonObject.keys (o : JsonObject) : List String := o.map Prod.fst

/-- Escape sequence of one character inside a JSON string. -/
def escapeChar (c : Char) : String :=
  if c = Char.ofNat 34 then "\\\""
  else if c = Char.ofNat 92 then "\\\\"
  else if c = Char.ofNat 8 then "\\b"
  else if c = Char.ofNat 12 then "\\f"
  else if c = Char.ofNat 10 then "\\n"
  else if c = Char.ofNat 13 then "\\r"
  else if c = Char.ofNat 9 then "\\t"
  else String.singleton c

/-- A quoted JSON string. -/
def quoteString (s : String) : String :=
  "\"" ++ String.join (s.toList.map escapeChar) ++ "\""

mutual
/-- Compact serialisation, as produced by `serializeJson`. -/
def JsonVariant.serialize : JsonVariant → String
  | .str s => quoteString s
  | .int n => toString n
  | .obj ms => "\x7b" ++ serializeMembers ms ++ "\x7d"
  | .arr xs => "[" ++ serializeItems xs ++ "]"
/-- Members of an object separated by commas. -/
def serializeMembers : List (String × JsonVariant) → String
  | [] => ""
  | (k, v) :: rest =>
    quoteString k ++ ":" ++ v.serialize ++ (if rest.isEmpty then "" else ",")
      ++ serializeMembers rest
/-- Items of an array separated by commas. -/
def serializeItems : List JsonVariant → String
  | [] => ""
  | v :: rest => v.serialize ++ (if rest.isEmpty then "" else ",") ++ serializeItems rest
end

/-- The call `serializeJson(doc, payload)` on a document whose root is an object. -/
def serializeJson (doc : JsonObject) : String := (JsonVariant.obj doc).serialize

/-! ## State -/

/-- The `PubSubClient` session as seen by `MqttClient`. -/
structure PubSubClient where
  /-- Answer of `connected()`. -/
  live : Bool
  /-- Host bound by `setServer`. -/
  domain : String
  /-- Port bound by `setServer` (a `uint16_t`). -/
  port : Int
deriving DecidableEq, Repr

/-- Fields of the C++ class `MqttClient`. -/
structure MqttClient where
  client : PubSubClient
  enabled : Bool
  server : String
  port : Int
  username : String
  password : String
  clientId : String
  topicPrefix : String
  lastReconnectAttempt : Nat
deriving DecidableEq, Repr

/-- A call made on the broker session. -/
inductive BrokerCall where
  | connect (domain : String) (port : Int) (id : String) (auth : Option (String × String))
  | publish (topic : String) (payload : String) (retained : Bool)
  | subscribe (topic : String)
  | disconnect
deriving DecidableEq, Repr

/-- The object together with its environment. -/
structure Sim where
  /-- The `MqttClient` object. -/
  self : MqttClient
  /-- Pending link events, one per blocking call: `true` means the session is
  lost during that call. An exhausted script means the link stays up. -/
  net : List Bool
  /-- Calls made on the broker session so far, oldest first. -/
  out : List BrokerCall
  /-- Ghost: the `millis()` readings at which `loop()` called `reconnect()`. -/
  attempts : List Nat
deriving DecidableEq, Repr

namespace MqttClient

/-- The constant `RECONNECT_INTERVAL` of `MqttClient.h`. -/
def RECONNECT_INTERVAL : Nat := 30000

/-- Number of values of an `unsigned long`. -/
def ULONG_RANGE : Nat := 2 ^ 32

/-- The constructor `MqttClient::MqttClient()`. -/
def new : MqttClient :=
  { client := { live := false, domain := "", port := 0 }
    enabled := false
    server := ""
    port := 1883
    username := ""
    password := ""
    clientId := ""
    topicPrefix := ""
    lastReconnectAttempt := 0 }

/-- Initial configuration of the simulation with a given link script. -/
def start (net : List Bool) : Sim :=
  { self := new, net := net, out := [], attempts := [] }

/-! ## The session primitives -/

/-- One blocking call elapses: the next link event is consumed. -/
def yield (s : Sim) : Sim :=
  match s.net with
  | [] => s
  | d :: rest =>
    { s with
      net := rest
      self := { s.self with client := { s.self.client with live := s.self.client.live && !d } } }

/-- The session is lost by an event outside any call. -/
def sessionDrop (s : Sim) : Sim :=
  { s with self := { s.self with client := { s.self.client with live := false } } }

/-- The query `client.connected()`. -/
def connected (s : Sim) : Bool := s.self.client.live

/-- The call `client.setServer(domain, port)`; the port is narrowed to 16 bits. -/
def setServer (domain : String) (port : Int) (s : Sim) : Sim :=
  { s with self := { s.self with client := { s.self.client with domain := domain, port := port % 65536 } } }

/-- The call `client.disconnect()`. -/
def disconnect (s : Sim) : Sim :=
  { s with
    out := s.out ++ [BrokerCall.disconnect]
    self := { s.self with client := { s.self.client with live := false } } }

/-- The call `client.connect(id[, user, pass])`; `accept` is the outcome. -/
def connect (id : String) (auth : Option (String × String)) (accept : Bool) (s : Sim) :
    Bool × Sim :=
  (accept,
    { s with
      out := s.out ++ [BrokerCall.connect s.self.client.domain s.self.client.port id auth]
      self := { s.self with client := { s.self.client with live := accept } } })

/-- The call `client.publish(topic, payload, retained)`. -/
def publish (topic payload : String) (retained : Bool) (s : Sim) : Sim :=
  yield { s with out := s.out ++ [BrokerCall.publish topic payload retained] }

/-- The call `client.subscribe(topic)`. -/
def subscribe (topic : String) (s : Sim) : Sim :=
  yield { s with out := s.out ++ [BrokerCall.subscribe topic] }

/-- The call `client.loop()`: inbound traffic and keep-alive are serviced. -/
def clientLoop (s : Sim) : Sim := yield s

/-- The call `delay(ms)`. -/
def delay (_ms : Nat) (s : Sim) : Sim := yield s

/-! ## Home Assistant discovery -/

/-- The JSON document assembled by `publishHASensorConfig`, as a function of
the fields `topicPrefix` and `clientId` and of the arguments. -/
def haSensorDoc (topicPrefix clientId sensorName friendlyName deviceClass unit icon : String) :
    JsonObject :=
  let stateTopic := topicPrefix ++ "/sensor/" ++ clientId ++ "_" ++ sensorName ++ "/state"
  let doc : JsonObject := []
  let doc := if deviceClass.length > 0 then doc.set "device_class" (.str deviceClass) else doc
  let doc := doc.set "name" (.str friendlyName)
  let doc := doc.set "state_topic" (.str stateTopic)
  let doc := if unit.length > 0 then doc.set "unit_of_measurement" (.str unit) else doc
  let doc := doc.set "value_template" (.str "\x7b\x7b value_json.value\x7d\x7d")
  let doc := doc.set "unique_id" (.str (clientId ++ "_" ++ sensorName))
  let doc := doc.set "state_class" (.str "measurement")
  let doc := doc.set "availability_topic" (.str (topicPrefix ++ "/" ++ clientId ++ "_death"))
  let doc := doc.set "default_entity_id" (.str ("sensor." ++ clientId ++ "_" ++ sensorName))
  let doc := doc.set "entity_category" (.str "diagnostic")
  let device : JsonObject := []
  let device := device.set "name" (.str clientId)
  let device := device.set "model" (.str "CC SFS")
  let device := device.set "manufacturer" (.str "Elegoo")
  let device := device.set "identifiers" (.arr [.str clientId])
  let doc := doc.set "device" (.obj device)
  if icon.length > 0 then doc.set "icon" (.str icon) else doc

/-- The topic `publishHASensorConfig` publishes a sensor's descriptor to. -/
def configTopic (topicPrefix clientId sensorName : String) : String :=
  topicPrefix ++ "/sensor/" ++ clientId ++ "_" ++ sensorName ++ "/config"

/-- The method `MqttClient::publishHASensorConfig`. -/
def publishHASensorConfig (sensorName friendlyName deviceClass unit icon : String) (s : Sim) :
    Sim :=
  if !connected s then s
  else
    let payload := serializeJson
      (haSensorDoc s.self.topicPrefix s.self.clientId sensorName friendlyName deviceClass unit icon)
    publish (configTopic s.self.topicPrefix s.self.clientId sensorName) payload true s

/-- The method `MqttClient::publishHADiscovery`. -/
def publishHADiscovery (s : Sim) : Sim :=
  if !connected s then s
  else
    let s :=
      if connected s then
        delay 500 (clientLoop
          (publishHASensorConfig "movement" "Movement Sensor" "" "" "mdi:motion-sensor" s))
      else s
    let s :=
      if connected s then
        delay 500 (clientLoop
          (publishHASensorConfig "runout" "Filament Runout" "" "" "mdi:printer-3d-nozzle-alert" s))
      else s
    let s :=
      if connected s then
        delay 500 (clientLoop
          (publishHASensorConfig "connection" "Printer Connection" "" "" "mdi:printer" s))
      else s
    let s :=
      if connected s then
        delay 500 (clientLoop
          (publishHASensorConfig "heap_usage" "Heap Usage" "" "%" "mdi:memory" s))
      else s
    if connected s then
      clientLoop
        (publishHASensorConfig "wifi_signal" "WiFi Signal" "signal_strength" "dBm" "mdi:wifi" s)
    else s

/-! ## Connection lifecycle -/

/-- The method `MqttClient::begin`. The handler installed with `setCallback`
only logs the inbound message and is not modelled. -/
def begin (s : Sim) : Sim := setServer s.self.server s.self.port s

/-- The method `MqttClient::reconnect`; `wifi` is `WiFi.isConnected()`, `accept`
the outcome of `client.connect`. -/
def reconnect (wifi accept : Bool) (s : Sim) : Bool × Sim :=
  if !s.self.enabled || s.self.server.length == 0 || !wifi then (false, s)
  else
    let r :=
      if s.self.username.length > 0 && s.self.password.length > 0 then
        connect s.self.clientId (some (s.self.username, s.self.password)) accept s
      else
        connect s.self.clientId none accept s
    if r.1 then
      let s := r.2
      let s := publish (s.self.topicPrefix ++ "/status") "online" true s
      let s := publish (s.self.topicPrefix ++ "/" ++ s.self.clientId ++ "_death") "online" true s
      let s := subscribe (s.self.topicPrefix ++ "/command") s
      (true, publishHADiscovery s)
    else (false, r.2)

/-- The unsigned difference `now - last` of two `unsigned long` values. -/
def elapsed (now last : Nat) : Nat := (now + ULONG_RANGE - last % ULONG_RANGE) % ULONG_RANGE

/-- The method `MqttClient::loop`; `t` is the time in milliseconds since boot,
of which `millis()` returns the low 32 bits. -/
def loop (t : Nat) (wifi accept : Bool) (s : Sim) : Sim :=
  if !s.self.enabled || s.self.server.length == 0 then s
  else if !connected s then
    let now := t % ULONG_RANGE
    if elapsed now s.self.lastReconnectAttempt ≥ RECONNECT_INTERVAL then
      let s := { s with self := { s.self with lastReconnectAttempt := now },
                        attempts := s.attempts ++ [now] }
      (reconnect wifi accept s).2
    else s
  else clientLoop s

/-- The method `MqttClient::updateSettings`. -/
def updateSettings (mqttEnabled : Bool) (mqttServer : String) (mqttPort : Int)
    (mqttUsername mqttPassword mqttClientId mqttTopicPrefix : String) (s : Sim) : Sim :=
  let settingsChanged : Bool :=
    (s.self.enabled != mqttEnabled) || (s.self.server != mqttServer) ||
    (s.self.port != mqttPort) || (s.self.username != mqttUsername) ||
    (s.self.password != mqttPassword) || (s.self.clientId != mqttClientId) ||
    (s.self.topicPrefix != mqttTopicPrefix)
  let s := { s with self := { s.self with
    enabled := mqttEnabled, server := mqttServer, port := mqttPort, username := mqttUsername,
    password := mqttPassword, clientId := mqttClientId, topicPrefix := mqttTopicPrefix } }
  if settingsChanged then
    let s := if connected s then disconnect s else s
    if s.self.enabled && s.self.server.length > 0 then setServer s.self.server s.self.port s
    else s
  else s

/-! ## Telemetry -/

/-- The method `MqttClient::publishMovementData`. -/
def publishMovementData (movementDetected : Bool) (s : Sim) : Sim :=
  if !connected s then s
  else
    let topic := s.self.topicPrefix ++ "/sensor/" ++ s.self.clientId ++ "_movement/state"
    let doc : JsonObject := JsonObject.set [] "value" (.int (if movementDetected then 1 else 0))
    publish topic (serializeJson doc) true s

/-- The method `MqttClient::publishRunoutData`. -/
def publishRunoutData (filamentRunout : Bool) (s : Sim) : Sim :=
  if !connected s then s
  else
    let topic := s.self.topicPrefix ++ "/sensor/" ++ s.self.clientId ++ "_runout/state"
    let doc : JsonObject := JsonObject.set [] "value" (.int (if filamentRunout then 1 else 0))
    publish topic (serializeJson doc) true s

/-- The method `MqttClient::publishConnectionData`. -/
def publishConnectionData (isConnected : Bool) (s : Sim) : Sim :=
  if !connected s then s
  else
    let topic := s.self.topicPrefix ++ "/sensor/" ++ s.self.clientId ++ "_connection/state"
    let doc : JsonObject := JsonObject.set [] "value" (.int (if isConnected then 1 else 0))
    publish topic (serializeJson doc) true s

/-- The method `MqttClient::publishPrinterStatus`. -/
def publishPrinterStatus (status : String) (s : Sim) : Sim :=
  if !connected s then s
  else publish (s.self.topicPrefix ++ "/printer/status") status true s

/-- The method `MqttClient::publishSystemHealth`. -/
def publishSystemHealth (heapUsage wifiSignal : Int) (s : Sim) : Sim :=
  if !connected s then s
  else
    let heapTopic := s.self.topicPrefix ++ "/sensor/" ++ s.self.clientId ++ "_heap_usage/state"
    let heapDoc : JsonObject := JsonObject.set [] "value" (.int heapUsage)
    let s := publish heapTopic (serializeJson heapDoc) true s
    let wifiTopic := s.self.topicPrefix ++ "/sensor/" ++ s.self.clientId ++ "_wifi_signal/state"
    let wifiDoc : JsonObject := JsonObject.set [] "value" (.int wifiSignal)
    publish wifiTopic (serializeJson wifiDoc) true s

/-- The method `MqttClient::isConnected`. -/
def isConnected (s : Sim) : Bool × Sim := (connected s, s)

/-- The method `MqttClient::getStatus`; `wifi` is `WiFi.isConnected()`. -/
def getStatus (wifi : Bool) (s : Sim) : String × Sim :=
  if !s.self.enabled then ("Disabled", s)
  else if !wifi then ("WiFi not connected", s)
  else if connected s then ("Connected to " ++ s.self.server ++ ":" ++ toString s.self.port, s)
  else ("Disconnected from " ++ s.self.server ++ ":" ++ toString s.self.port, s)

end MqttClient

/-! ## Runs of the public interface -/

/-- One call of the public interface, or a loss of the session between calls. -/
inductive Cmd where
  | begin
  | loop (t : Nat) (wifi accept : Bool)
  | updateSettings (mqttEnabled : Bool) (mqttServer : String) (mqttPort : Int)
      (mqttUsername mqttPassword mqttClientId mqttTopicPrefix : String)
  | publishMovementData (movementDetected : Bool)
  | publishRunoutData (filamentRunout : Bool)
  | publishConnectionData (isConnected : Bool)
  | publishPrinterStatus (status : String)
  | publishSystemHealth (heapUsage wifiSignal : Int)
  | publishHADiscovery
  | publishHASensorConfig (sensorName friendlyName deviceClass unit icon : String)
  | sessionDrop
deriving DecidableEq, Repr

namespace MqttClient

/-- Effect of one command. -/
def step (c : Cmd) (s : Sim) : Sim :=
  match c with
  | .begin => begin s
  | .loop t wifi accept => loop t wifi accept s
  | .updateSettings e sv p u pw id tp => updateSettings e sv p u pw id tp s
  | .publishMovementData b => publishMovementData b s
  | .publishRunoutData b => publishRunoutData b s
  | .publishConnectionData b => publishConnectionData b s
  | .publishPrinterStatus st => publishPrinterStatus st s
  | .publishSystemHealth h w => publishSystemHealth h w s
  | .publishHADiscovery => publishHADiscovery s
  | .publishHASensorConfig a b c d e => publishHASensorConfig a b c d e s
  | .sessionDrop => sessionDrop s

/-- Effect of a sequence of commands, first command first. -/
def run : List Cmd → Sim → Sim
  | [], s => s
  | c :: cs, s => run cs (step c s)

/-- The clock values handed to the `loop()` calls of a sequence, in order. -/
def clock : List Cmd → List Nat
  | [] => []
  | .loop t _ _ :: cs => t :: clock cs
  | _ :: cs => clock cs

/-- The five discovery publishes of `publishHADiscovery`, in source order. -/
def discoveryCalls (topicPrefix clientId : String) : List BrokerCall :=
  [ BrokerCall.publish (configTopic topicPrefix clientId "movement")
      (serializeJson (haSensorDoc topicPrefix clientId "movement" "Movement Sensor" "" "" "mdi:motion-sensor")) true,
    BrokerCall.publish (configTopic topicPrefix clientId "runout")
      (serializeJson (haSensorDoc topicPrefix clientId "runout" "Filament Runout" "" ""
        "mdi:printer-3d-nozzle-alert")) true,
    BrokerCall.publish (configTopic topicPrefix clientId "connection")
      (serializeJson (haSensorDoc topicPrefix clientId "connection" "Printer Connection" "" "" "mdi:printer")) true,
    BrokerCall.publish (configTopic topicPrefix clientId "heap_usage")
      (serializeJson (haSensorDoc topicPrefix clientId "heap_usage" "Heap Usage" "" "%" "mdi:memory")) true,
    BrokerCall.publish (configTopic topicPrefix clientId "wifi_signal")
      (serializeJson (haSensorDoc topicPrefix clientId "wifi_signal" "WiFi Signal" "signal_strength" "dBm"
        "mdi:wifi")) true ]

end MqttClient

namespace MqttClient

/-! ## Notions used in the statements -/

/-- The session survives the first `n` blocking calls of a link script. -/
def alive (n : Nat) (net : List Bool) : Bool := (net.take n).all (fun d => !d)

/-- One guarded entry of `publishHADiscovery` that is followed by the pacing delay. -/
def sensorStep (sensorName friendlyName deviceClass unit icon : String) (s : Sim) : Sim :=
  if connected s then
    delay 500 (clientLoop (publishHASensorConfig sensorName friendlyName deviceClass unit icon s))
  else s

/-- The last guarded entry of `publishHADiscovery`, which has no pacing delay. -/
def sensorLast (sensorName friendlyName deviceClass unit icon : String) (s : Sim) : Sim :=
  if connected s then
    clientLoop (publishHASensorConfig sensorName friendlyName deviceClass unit icon s)
  else s

/-- The discovery publish of one sensor. -/
def sensorCall (topicPrefix clientId sensorName friendlyName deviceClass unit icon : String) :
    BrokerCall :=
  BrokerCall.publish (configTopic topicPrefix clientId sensorName)
    (serializeJson (haSensorDoc topicPrefix clientId sensorName friendlyName deviceClass unit icon))
    true

/-- The call leading from `s` to `t` leaves the configuration, the timestamp and
the attempt log alone and does not connect the session. -/
def Frame (s t : Sim) : Prop :=
  t.attempts = s.attempts ∧ t.self.lastReconnectAttempt = s.self.lastReconnectAttempt ∧
    t.self.enabled = s.self.enabled ∧ t.self.server = s.self.server ∧
    (connected t = true → connected s = true)

/-- Spacing of two consecutive attempt times. -/
def Spaced (t1 t2 : Nat) : Prop := t1 < t2 ∧ RECONNECT_INTERVAL ≤ t2 - t1

/-- State after `i` discovery entries, relative to the state `s0` at entry. -/
def DiscInv (s0 s : Sim) (i : Nat) : Prop :=
  connected s = alive (3 * i) s0.net ∧ (connected s = true → s.net = s0.net.drop (3 * i)) ∧
    s.self.topicPrefix = s0.self.topicPrefix ∧ s.self.clientId = s0.self.clientId

/-- Invariant of reachable states: a connected session implies an enabled
configuration with a non-empty host. -/
def SessionInv (s : Sim) : Prop :=
  connected s = true → s.self.enabled = true ∧ s.self.server.length ≠ 0

/-- The configuration of the scenarios: broker `broker.local:1883`, anonymous,
client `dev1`, prefix `homeassistant`, applied to a fresh object. -/
def exampleConfig : Sim :=
  updateSettings true "broker.local" 1883 "" "" "dev1" "homeassistant" (start [])

/-- The same configuration with a connected session and a given link script. -/
def exampleSession (net : List Bool) : Sim :=
  { self :=
      { client := { live := true, domain := "broker.local", port := 1883 }
        enabled := true
        server := "broker.local"
        port := 1883
        username := ""
        password := ""
        clientId := "dev1"
        topicPrefix := "homeassistant"
        lastReconnectAttempt := 30000 }
    net := net
    out := []
    attempts := [30000] }

/-- A run of the scenarios: configure, a refused attempt at 30000 ms, two ticks
inside the interval, an accepted attempt at 60000 ms. -/
def exampleRun : List Cmd :=
  [Cmd.updateSettings true "broker.local" 1883 "" "" "dev1" "homeassistant",
   Cmd.loop 30000 true false, Cmd.loop 45000 true true, Cmd.loop 59999 true true,
   Cmd.loop 60000 true true]

/-- The top-level keys of a discovery payload as the specification lists them,
in its order: `device_class` (only if defined), `name`, `state_topic`,
`unit_of_measurement` (only if defined), `value_template`, `unique_id`,
`state_class`, `availability_topic`, `entity_category`, `device`, `icon`
(only if defined). -/
def specDiscoveryKeys (deviceClass unit icon : String) : List String :=
  (if deviceClass ≠ "" then ["device_class"] else []) ++
  ["name", "state_topic"] ++
  (if unit ≠ "" then ["unit_of_measurement"] else []) ++
  ["value_template", "unique_id", "state_class", "availability_topic", "entity_category",
   "device"] ++
  (if icon ≠ "" then ["icon"] else [])

end MqttClient

namespace MqttClient

/-! ## Auxiliary facts -/

theorem quoteString_value : quoteString "value" = "\"value\"" := by decide

theorem serializeJson_value (n : Int) :
    serializeJson (JsonObject.set [] "value" (.int n))
      = "\x7b\"value\":" ++ toString n ++ "\x7d" := by
  simp only [serializeJson, JsonObject.set, JsonVariant.serialize, serializeMembers,
    quoteString_value, List.isEmpty_nil, if_true, String.append_assoc]
  exact (String.append_assoc _ _ _).symm

theorem length_eq_zero_iff (s : String) : s.length = 0 ↔ s = "" := by
  obtain ⟨l⟩ := s
  cases l with
  | nil => exact ⟨fun _ => rfl, fun _ => rfl⟩
  | cons a l =>
    constructor
    · intro h; exact absurd h (Nat.succ_ne_zero _)
    · intro h; exact absurd (congrArg String.data h) (List.cons_ne_nil _ _)

@[simp] theorem yield_out (s : Sim) : (yield s).out = s.out := by
  unfold yield; split <;> rfl

@[simp] theorem yield_attempts (s : Sim) : (yield s).attempts = s.attempts := by
  unfold yield; split <;> rfl

@[simp] theorem yield_enabled (s : Sim) : (yield s).self.enabled = s.self.enabled := by
  unfold yield; split <;> rfl

@[simp] theorem yield_server (s : Sim) : (yield s).self.server = s.self.server := by
  unfold yield; split <;> rfl

@[simp] theorem yield_port (s : Sim) : (yield s).self.port = s.self.port := by
  unfold yield; split <;> rfl

@[simp] theorem yield_username (s : Sim) : (yield s).self.username = s.self.username := by
  unfold yield; split <;> rfl

@[simp] theorem yield_password (s : Sim) : (yield s).self.password = s.self.password := by
  unfold yield; split <;> rfl

@[simp] theorem yield_clientId (s : Sim) : (yield s).self.clientId = s.self.clientId := by
  unfold yield; split <;> rfl

@[simp] theorem yield_topicPrefix (s : Sim) : (yield s).self.topicPrefix = s.self.topicPrefix := by
  unfold yield; split <;> rfl

@[simp] theorem yield_lastReconnectAttempt (s : Sim) : (yield s).self.lastReconnectAttempt = s.self.lastReconnectAttempt := by
  unfold yield; split <;> rfl

@[simp] theorem yield_client_domain (s : Sim) : (yield s).self.client.domain = s.self.client.domain := by
  unfold yield; split <;> rfl

@[simp] theorem yield_client_port (s : Sim) : (yield s).self.client.port = s.self.client.port := by
  unfold yield; split <;> rfl

theorem publishHADiscovery_eq (s : Sim) :
    publishHADiscovery s =
      if !connected s then s
      else
        sensorLast "wifi_signal" "WiFi Signal" "signal_strength" "dBm" "mdi:wifi"
          (sensorStep "heap_usage" "Heap Usage" "" "%" "mdi:memory"
            (sensorStep "connection" "Printer Connection" "" "" "mdi:printer"
              (sensorStep "runout" "Filament Runout" "" "" "mdi:printer-3d-nozzle-alert"
                (sensorStep "movement" "Movement Sensor" "" "" "mdi:motion-sensor" s)))) := rfl

theorem alive_zero (net : List Bool) : alive 0 net = true := by simp [alive]

theorem alive_nil (n : Nat) : alive n [] = true := by simp [alive]

theorem alive_succ_cons (n : Nat) (d : Bool) (net : List Bool) :
    alive (n + 1) (d :: net) = (!d && alive n net) := by simp [alive]

theorem alive_add (a b : Nat) (net : List Bool) :
    alive (a + b) net = (alive a net && alive b (net.drop a)) := by
  induction a generalizing net with
  | zero => simp [alive_zero]
  | succ a ih =>
    cases net with
    | nil => simp [alive_nil]
    | cons d r =>
      rw [show a + 1 + b = (a + b) + 1 by omega, alive_succ_cons, alive_succ_cons, ih]
      simp [Bool.and_assoc]

theorem alive_replicate (m n : Nat) (rest : List Bool) :
    alive m (List.replicate n false ++ true :: rest) = decide (m ≤ n) := by
  induction n generalizing m with
  | zero =>
    cases m with
    | zero => simp [alive_zero]
    | succ m => simp [alive_succ_cons]
  | succ n ih =>
    cases m with
    | zero => simp [alive_zero]
    | succ m =>
      rw [List.replicate_succ, List.cons_append, alive_succ_cons, ih]
      simp

theorem alive_of_quiet (m : Nat) (net : List Bool) (h : ∀ d ∈ net, d = false) :
    alive m net = true := by
  simp only [alive, List.all_eq_true]
  intro d hd
  rw [h d (List.mem_of_mem_take hd)]
  rfl

theorem yield_net (s : Sim) : (yield s).net = s.net.drop 1 := by
  unfold yield; split <;> simp [*]

theorem yield_live (s : Sim) :
    (yield s).self.client.live = (s.self.client.live && alive 1 s.net) := by
  unfold yield; split <;> simp [*, alive]

theorem alive_two (net : List Bool) :
    alive 2 net = (alive 1 net && alive 1 (net.drop 1)) := alive_add 1 1 net

theorem alive_three (net : List Bool) :
    alive 3 net = (alive 1 net && alive 1 (net.drop 1) && alive 1 (net.drop 2)) := by
  rw [show (3 : Nat) = 2 + 1 from rfl, alive_add, alive_two]

/-- Effect of a guarded discovery entry on a connected session. -/
theorem sensorStep_live (a b c d e : String) (s : Sim) (h : connected s = true) :
    (sensorStep a b c d e s).out
        = s.out ++ [sensorCall s.self.topicPrefix s.self.clientId a b c d e] ∧
      (sensorStep a b c d e s).net = s.net.drop 3 ∧
      connected (sensorStep a b c d e s) = alive 3 s.net := by
  simp only [connected] at h
  refine ⟨?_, ?_, ?_⟩
  · simp [sensorStep, connected, h, delay, clientLoop, publishHASensorConfig, publish, sensorCall]
  · simp [sensorStep, connected, h, delay, clientLoop, publishHASensorConfig, publish, yield_net]
  · simp [sensorStep, connected, h, delay, clientLoop, publishHASensorConfig, publish, yield_net,
      yield_live, alive_three]

theorem sensorLast_out (a b c d e : String) (s : Sim) :
    (sensorLast a b c d e s).out
        = s.out ++ (if connected s then [sensorCall s.self.topicPrefix s.self.clientId a b c d e] else []) := by
  by_cases h : connected s = true
  · simp only [connected] at h
    simp [sensorLast, connected, h, clientLoop, publishHASensorConfig, publish, sensorCall]
  · simp [sensorLast, h]


theorem sensorStep_inv (a b c d e : String) (s0 s : Sim) (i : Nat) (h : DiscInv s0 s i) :
    DiscInv s0 (sensorStep a b c d e s) (i + 1) ∧
    (sensorStep a b c d e s).out = s.out ++
      (if alive (3 * i) s0.net
       then [sensorCall s0.self.topicPrefix s0.self.clientId a b c d e] else []) := by
  obtain ⟨h1, h2, h3, h4⟩ := h
  by_cases hc : connected s = true
  · obtain ⟨o, n, l⟩ := sensorStep_live a b c d e s hc
    have hn := h2 hc
    refine ⟨⟨?_, ?_, ?_, ?_⟩, ?_⟩
    · rw [l, hn, show 3 * (i + 1) = 3 * i + 3 by ring, alive_add, ← h1, hc]; simp
    · intro _; rw [n, hn, List.drop_drop]; congr 1
    · simp [sensorStep, hc, delay, clientLoop, publishHASensorConfig, publish, h3]
    · simp [sensorStep, hc, delay, clientLoop, publishHASensorConfig, publish, h4]
    · rw [o, ← h1, hc, h3, h4]; simp
  · have hs : sensorStep a b c d e s = s := by simp [sensorStep, hc]
    have hf : alive (3 * i) s0.net = false := by rw [← h1]; simpa using hc
    rw [hs]
    refine ⟨⟨?_, ?_, h3, h4⟩, ?_⟩
    · rw [show 3 * (i + 1) = 3 * i + 3 by ring, alive_add, hf]; simpa using hc
    · intro h; exact absurd h hc
    · simp [hf]

/-- The calls made by `publishHADiscovery`, for an arbitrary link script. -/
theorem publishHADiscovery_out (s : Sim) (h : connected s = true) :
    (publishHADiscovery s).out = s.out ++
      ([sensorCall s.self.topicPrefix s.self.clientId "movement" "Movement Sensor" "" "" "mdi:motion-sensor"] ++
      (if alive 3 s.net then [sensorCall s.self.topicPrefix s.self.clientId "runout" "Filament Runout" "" "" "mdi:printer-3d-nozzle-alert"] else []) ++
      (if alive 6 s.net then [sensorCall s.self.topicPrefix s.self.clientId "connection" "Printer Connection" "" "" "mdi:printer"] else []) ++
      (if alive 9 s.net then [sensorCall s.self.topicPrefix s.self.clientId "heap_usage" "Heap Usage" "" "%" "mdi:memory"] else []) ++
      (if alive 12 s.net then [sensorCall s.self.topicPrefix s.self.clientId "wifi_signal" "WiFi Signal" "signal_strength" "dBm" "mdi:wifi"] else [])) := by
  have h0 : DiscInv s s 0 := ⟨by simp [h, alive_zero], fun _ => by simp, rfl, rfl⟩
  obtain ⟨i1, o1⟩ := sensorStep_inv "movement" "Movement Sensor" "" "" "mdi:motion-sensor" s _ 0 h0
  obtain ⟨i2, o2⟩ := sensorStep_inv "runout" "Filament Runout" "" "" "mdi:printer-3d-nozzle-alert" s _ 1 i1
  obtain ⟨i3, o3⟩ := sensorStep_inv "connection" "Printer Connection" "" "" "mdi:printer" s _ 2 i2
  obtain ⟨i4, o4⟩ := sensorStep_inv "heap_usage" "Heap Usage" "" "%" "mdi:memory" s _ 3 i3
  rw [publishHADiscovery_eq, h]
  simp only [Bool.not_true, Bool.false_eq_true, if_false]
  rw [sensorLast_out, o4, o3, o2, o1, i4.1, i4.2.2.1, i4.2.2.2]
  simp [alive_zero, List.append_assoc]

/-! ### Frame facts -/

theorem Frame.refl (s : Sim) : Frame s s := ⟨rfl, rfl, rfl, rfl, id⟩

theorem Frame.trans {a b c : Sim} (h1 : Frame a b) (h2 : Frame b c) : Frame a c :=
  ⟨h2.1.trans h1.1, h2.2.1.trans h1.2.1, h2.2.2.1.trans h1.2.2.1, h2.2.2.2.1.trans h1.2.2.2.1,
    fun h => h1.2.2.2.2 (h2.2.2.2.2 h)⟩

theorem frame_yield (s : Sim) : Frame s (yield s) := by
  refine ⟨by simp, by simp, by simp, by simp, ?_⟩
  simp only [connected, yield_live]
  intro h
  simp at h
  exact h.1

theorem frame_publish (t p : String) (r : Bool) (s : Sim) : Frame s (publish t p r s) :=
  Frame.trans ⟨rfl, rfl, rfl, rfl, id⟩ (frame_yield _)

theorem frame_subscribe (t : String) (s : Sim) : Frame s (subscribe t s) :=
  Frame.trans ⟨rfl, rfl, rfl, rfl, id⟩ (frame_yield _)

theorem frame_setServer (d : String) (p : Int) (s : Sim) : Frame s (setServer d p s) :=
  ⟨rfl, rfl, rfl, rfl, id⟩

theorem frame_sessionDrop (s : Sim) : Frame s (sessionDrop s) :=
  ⟨rfl, rfl, rfl, rfl, fun h => by simp [connected, sessionDrop] at h⟩

theorem frame_publishHASensorConfig (a b c d e : String) (s : Sim) :
    Frame s (publishHASensorConfig a b c d e s) := by
  unfold publishHASensorConfig
  split
  · exact Frame.refl s
  · exact frame_publish _ _ _ s

theorem frame_sensorStep (a b c d e : String) (s : Sim) : Frame s (sensorStep a b c d e s) := by
  unfold sensorStep
  split
  · exact (frame_publishHASensorConfig a b c d e s).trans
      ((frame_yield _).trans (frame_yield _))
  · exact Frame.refl s

theorem frame_sensorLast (a b c d e : String) (s : Sim) : Frame s (sensorLast a b c d e s) := by
  unfold sensorLast
  split
  · exact (frame_publishHASensorConfig a b c d e s).trans (frame_yield _)
  · exact Frame.refl s

theorem frame_publishHADiscovery (s : Sim) : Frame s (publishHADiscovery s) := by
  rw [publishHADiscovery_eq]
  split
  · exact Frame.refl s
  · exact (frame_sensorStep _ _ _ _ _ _).trans ((frame_sensorStep _ _ _ _ _ _).trans
      ((frame_sensorStep _ _ _ _ _ _).trans ((frame_sensorStep _ _ _ _ _ _).trans
        (frame_sensorLast _ _ _ _ _ _))))

theorem frame_publishMovementData (b : Bool) (s : Sim) : Frame s (publishMovementData b s) := by
  unfold publishMovementData
  split
  · exact Frame.refl s
  · exact frame_publish _ _ _ s

theorem frame_publishRunoutData (b : Bool) (s : Sim) : Frame s (publishRunoutData b s) := by
  unfold publishRunoutData
  split
  · exact Frame.refl s
  · exact frame_publish _ _ _ s

theorem frame_publishConnectionData (b : Bool) (s : Sim) :
    Frame s (publishConnectionData b s) := by
  unfold publishConnectionData
  split
  · exact Frame.refl s
  · exact frame_publish _ _ _ s

theorem frame_publishPrinterStatus (st : String) (s : Sim) :
    Frame s (publishPrinterStatus st s) := by
  unfold publishPrinterStatus
  split
  · exact Frame.refl s
  · exact frame_publish _ _ _ s

theorem frame_publishSystemHealth (h w : Int) (s : Sim) :
    Frame s (publishSystemHealth h w s) := by
  unfold publishSystemHealth
  split
  · exact Frame.refl s
  · exact (frame_publish _ _ _ s).trans (frame_publish _ _ _ _)

/-- What `reconnect()` leaves alone, and when it can leave a session behind. -/
theorem reconnect_frame (wifi accept : Bool) (s : Sim) :
    (reconnect wifi accept s).2.attempts = s.attempts ∧
    (reconnect wifi accept s).2.self.lastReconnectAttempt = s.self.lastReconnectAttempt ∧
    (reconnect wifi accept s).2.self.enabled = s.self.enabled ∧
    (reconnect wifi accept s).2.self.server = s.self.server ∧
    (connected (reconnect wifi accept s).2 = true →
      connected s = true ∨ (s.self.enabled = true ∧ s.self.server.length ≠ 0)) := by
  unfold reconnect
  split
  · exact ⟨rfl, rfl, rfl, rfl, fun h => Or.inl h⟩
  · rename_i hg
    have hes : s.self.enabled = true ∧ s.self.server.length ≠ 0 := by
      simp at hg
      exact ⟨hg.1.1, hg.1.2⟩
    have hc : (if s.self.username.length > 0 && s.self.password.length > 0 then
          connect s.self.clientId (some (s.self.username, s.self.password)) accept s
        else connect s.self.clientId none accept s)
        = connect s.self.clientId
            (if s.self.username.length > 0 && s.self.password.length > 0
             then some (s.self.username, s.self.password) else none) accept s := by
      split <;> rfl
    simp only [hc]
    generalize (if s.self.username.length > 0 && s.self.password.length > 0
             then some (s.self.username, s.self.password) else none) = auth
    cases accept with
    | false =>
      simp only [connect, Bool.false_eq_true, if_false]
      refine ⟨?_, ?_, ?_, ?_, fun _ => Or.inr hes⟩ <;> first | rfl | trivial
    | true =>
      simp only [connect, if_true]
      have f := fun (c : Sim) (t1 p1 t2 p2 t3 : String) (r1 r2 : Bool) =>
        (frame_publish t1 p1 r1 c).trans ((frame_publish t2 p2 r2 _).trans
          ((frame_subscribe t3 _).trans (frame_publishHADiscovery _)))
      exact ⟨(f _ _ _ _ _ _ _ _).1, (f _ _ _ _ _ _ _ _).2.1, (f _ _ _ _ _ _ _ _).2.2.1,
        (f _ _ _ _ _ _ _ _).2.2.2.1, fun _ => Or.inr hes⟩

/-! ### Runs -/

theorem SessionInv.of_frame {s t : Sim} (f : Frame s t) (h : SessionInv s) : SessionInv t := by
  intro hc
  have := h (f.2.2.2.2 hc)
  rw [f.2.2.1, f.2.2.2.1]
  exact this

/-- Either `loop()` leaves the attempt log and the timestamp alone, or the
interval gate was open and both record the current `millis()` reading. -/
theorem loop_attempts (t : Nat) (wifi accept : Bool) (s : Sim) :
    ((loop t wifi accept s).attempts = s.attempts ∧
      (loop t wifi accept s).self.lastReconnectAttempt = s.self.lastReconnectAttempt) ∨
    (RECONNECT_INTERVAL ≤ elapsed (t % ULONG_RANGE) s.self.lastReconnectAttempt ∧
      (loop t wifi accept s).attempts = s.attempts ++ [t % ULONG_RANGE] ∧
      (loop t wifi accept s).self.lastReconnectAttempt = t % ULONG_RANGE) := by
  unfold loop
  split
  · exact Or.inl ⟨rfl, rfl⟩
  · split
    · simp only []
      split
      · rename_i hg
        refine Or.inr ⟨hg, ?_, ?_⟩
        · exact (reconnect_frame wifi accept _).1
        · exact (reconnect_frame wifi accept _).2.1
      · exact Or.inl ⟨rfl, rfl⟩
    · exact Or.inl ⟨(frame_yield s).1, (frame_yield s).2.1⟩

theorem loop_sessionInv (t : Nat) (wifi accept : Bool) (s : Sim) (h : SessionInv s) :
    SessionInv (loop t wifi accept s) := by
  unfold loop
  split
  · exact h
  · split
    · rename_i hc
      simp only []
      split
      · intro hl
        have r := reconnect_frame wifi accept
          { s with self := { s.self with lastReconnectAttempt := t % ULONG_RANGE },
                   attempts := s.attempts ++ [t % ULONG_RANGE] }
        rw [r.2.2.1, r.2.2.2.1]
        rcases r.2.2.2.2 hl with h1 | h1
        · simp [connected] at hc h1
          rw [hc] at h1
          exact absurd h1 (by decide)
        · exact h1
      · exact h
    · exact SessionInv.of_frame (frame_yield s) h

/-- What `updateSettings` leaves alone; a session survives it only when nothing changed. -/
theorem updateSettings_frame (e : Bool) (sv : String) (p : Int) (u pw id tp : String) (s : Sim) :
    (updateSettings e sv p u pw id tp s).attempts = s.attempts ∧
    (updateSettings e sv p u pw id tp s).self.lastReconnectAttempt
      = s.self.lastReconnectAttempt ∧
    (connected (updateSettings e sv p u pw id tp s) = true →
      updateSettings e sv p u pw id tp s = s) := by
  refine ⟨?_, ?_, ?_⟩
  · simp only [updateSettings, connected, disconnect, setServer]
    split_ifs <;> rfl
  · simp only [updateSettings, connected, disconnect, setServer]
    split_ifs <;> rfl
  · by_cases hc : s.self.enabled = e ∧ s.self.server = sv ∧ s.self.port = p ∧
        s.self.username = u ∧ s.self.password = pw ∧ s.self.clientId = id ∧
        s.self.topicPrefix = tp
    · obtain ⟨h1, h2, h3, h4, h5, h6, h7⟩ := hc
      intro _
      simp only [updateSettings]
      subst h1 h2 h3 h4 h5 h6 h7
      simp
    · have hb : ((s.self.enabled != e) || (s.self.server != sv) ||
          (s.self.port != p) || (s.self.username != u) ||
          (s.self.password != pw) || (s.self.clientId != id) ||
          (s.self.topicPrefix != tp)) = true := by
        simp only [not_and_or] at hc
        simpa [or_assoc] using hc
      intro hl
      exfalso
      revert hl
      simp only [updateSettings, hb, connected, disconnect, setServer, if_true]
      split_ifs <;> simp_all

theorem step_sessionInv (c : Cmd) (s : Sim) (h : SessionInv s) : SessionInv (step c s) := by
  cases c with
  | begin => exact SessionInv.of_frame (frame_setServer _ _ s) h
  | loop t wifi accept => exact loop_sessionInv t wifi accept s h
  | updateSettings e sv p u pw id tp =>
    intro hc
    have := (updateSettings_frame e sv p u pw id tp s).2.2 hc
    simp only [step] at hc ⊢
    rw [this] at hc ⊢
    exact h hc
  | publishMovementData b => exact SessionInv.of_frame (frame_publishMovementData b s) h
  | publishRunoutData b => exact SessionInv.of_frame (frame_publishRunoutData b s) h
  | publishConnectionData b => exact SessionInv.of_frame (frame_publishConnectionData b s) h
  | publishPrinterStatus st => exact SessionInv.of_frame (frame_publishPrinterStatus st s) h
  | publishSystemHealth hp w => exact SessionInv.of_frame (frame_publishSystemHealth hp w s) h
  | publishHADiscovery => exact SessionInv.of_frame (frame_publishHADiscovery s) h
  | publishHASensorConfig a b c d e =>
    exact SessionInv.of_frame (frame_publishHASensorConfig a b c d e s) h
  | sessionDrop => exact SessionInv.of_frame (frame_sessionDrop s) h

theorem run_sessionInv (cmds : List Cmd) (s : Sim) (h : SessionInv s) :
    SessionInv (run cmds s) := by
  induction cmds generalizing s with
  | nil => exact h
  | cons c cs ih => exact ih _ (step_sessionInv c s h)

/-- Each command other than `loop` leaves the attempt log and the timestamp alone. -/
theorem step_attempts (c : Cmd) (s : Sim) (hc : ∀ t wifi accept, c ≠ Cmd.loop t wifi accept) :
    (step c s).attempts = s.attempts ∧
    (step c s).self.lastReconnectAttempt = s.self.lastReconnectAttempt := by
  cases c with
  | begin => exact ⟨rfl, rfl⟩
  | loop t wifi accept => exact absurd rfl (hc t wifi accept)
  | updateSettings e sv p u pw id tp =>
    exact ⟨(updateSettings_frame e sv p u pw id tp s).1,
      (updateSettings_frame e sv p u pw id tp s).2.1⟩
  | publishMovementData b =>
    exact ⟨(frame_publishMovementData b s).1, (frame_publishMovementData b s).2.1⟩
  | publishRunoutData b =>
    exact ⟨(frame_publishRunoutData b s).1, (frame_publishRunoutData b s).2.1⟩
  | publishConnectionData b =>
    exact ⟨(frame_publishConnectionData b s).1, (frame_publishConnectionData b s).2.1⟩
  | publishPrinterStatus st =>
    exact ⟨(frame_publishPrinterStatus st s).1, (frame_publishPrinterStatus st s).2.1⟩
  | publishSystemHealth hp w =>
    exact ⟨(frame_publishSystemHealth hp w s).1, (frame_publishSystemHealth hp w s).2.1⟩
  | publishHADiscovery =>
    exact ⟨(frame_publishHADiscovery s).1, (frame_publishHADiscovery s).2.1⟩
  | publishHASensorConfig a b c d e =>
    exact ⟨(frame_publishHASensorConfig a b c d e s).1,
      (frame_publishHASensorConfig a b c d e s).2.1⟩
  | sessionDrop => exact ⟨rfl, rfl⟩

theorem elapsed_of_le (a t : Nat) (h1 : a ≤ t) (h2 : t < ULONG_RANGE) : elapsed t a = t - a := by
  have hR : ULONG_RANGE = 4294967296 := by norm_num [ULONG_RANGE]
  rw [hR] at h2
  unfold elapsed
  rw [hR]
  omega

theorem clock_cons_of_not_loop (c : Cmd) (cs : List Cmd)
    (hc : ∀ t wifi accept, c ≠ Cmd.loop t wifi accept) : clock (c :: cs) = clock cs := by
  cases c <;> first | rfl | exact absurd rfl (hc _ _ _)

theorem attempts_chain (cmds : List Cmd) : ∀ (s : Sim),
    List.Chain' Spaced s.attempts →
    (∀ a, s.attempts.getLast? = some a →
      a = s.self.lastReconnectAttempt ∧ ∀ t ∈ clock cmds, a ≤ t) →
    (clock cmds).Pairwise (· ≤ ·) → (∀ t ∈ clock cmds, t < ULONG_RANGE) →
    List.Chain' Spaced (run cmds s).attempts := by
  induction cmds with
  | nil => intro s h _ _ _; exact h
  | cons c cs ih =>
    intro s hch hlast hmono hlt
    by_cases hc : ∃ t wifi accept, c = Cmd.loop t wifi accept
    · obtain ⟨t, wifi, accept, rfl⟩ := hc
      have hck : clock (Cmd.loop t wifi accept :: cs) = t :: clock cs := rfl
      rw [hck] at hlast hmono hlt
      have htlt : t < ULONG_RANGE := hlt t (List.mem_cons_self _ _)
      have hmod : t % ULONG_RANGE = t := Nat.mod_eq_of_lt htlt
      obtain ⟨hle, hmono'⟩ := List.pairwise_cons.1 hmono
      have hlt' : ∀ u ∈ clock cs, u < ULONG_RANGE := fun u hu => hlt u (List.mem_cons_of_mem _ hu)
      show List.Chain' Spaced (run cs (loop t wifi accept s)).attempts
      rcases loop_attempts t wifi accept s with ⟨ha, hl⟩ | ⟨hg, ha, hl⟩
      · apply ih _ (by rw [ha]; exact hch) _ hmono' hlt'
        intro a hlast'
        rw [ha] at hlast'
        obtain ⟨e1, e2⟩ := hlast a hlast'
        exact ⟨by rw [hl]; exact e1, fun u hu => e2 u (List.mem_cons_of_mem _ hu)⟩
      · rw [hmod] at hg ha hl
        apply ih _ _ _ hmono' hlt'
        · rw [ha]
          refine List.Chain'.append hch (List.chain'_singleton t) ?_
          intro x hx y hy
          have hx' : s.attempts.getLast? = some x := hx
          obtain ⟨e1, e2⟩ := hlast x hx'
          have hy' : y = t := by simpa using hy.symm
          subst hy'
          have hxy : x ≤ y := e2 y (List.mem_cons_self _ _)
          rw [← e1, elapsed_of_le x y hxy htlt] at hg
          have hpos : 0 < RECONNECT_INTERVAL := by decide
          exact ⟨by omega, hg⟩
        · intro a hlast'
          rw [ha, List.getLast?_append] at hlast'
          simp at hlast'
          subst hlast'
          exact ⟨hl.symm, hle⟩
    · have hc' : ∀ t wifi accept, c ≠ Cmd.loop t wifi accept := fun t w a h => hc ⟨t, w, a, h⟩
      rw [clock_cons_of_not_loop c cs hc'] at hlast hmono hlt
      obtain ⟨ha, hl⟩ := step_attempts c s hc'
      show List.Chain' Spaced (run cs (step c s)).attempts
      apply ih _ (by rw [ha]; exact hch) _ hmono hlt
      intro a hlast'
      rw [ha] at hlast'
      rw [hl]
      exact hlast a hlast'


theorem quiet_drop (j : Nat) (net : List Bool) (h : ∀ d ∈ net, d = false) :
    ∀ d ∈ net.drop j, d = false := fun d hd => h d (List.mem_of_mem_drop hd)

/-- Calls made by a successful `reconnect()` while the link stays up. -/
theorem reconnect_out_quiet (s : Sim) (he : s.self.enabled = true) (hs : s.self.server ≠ "")
    (hq : ∀ d ∈ s.net, d = false) :
    (reconnect true true s).2.out = s.out ++
      [ BrokerCall.connect s.self.client.domain s.self.client.port s.self.clientId
          (if s.self.username.length > 0 && s.self.password.length > 0
           then some (s.self.username, s.self.password) else none),
        BrokerCall.publish (s.self.topicPrefix ++ "/status") "online" true,
        BrokerCall.publish (s.self.topicPrefix ++ "/" ++ s.self.clientId ++ "_death") "online" true,
        BrokerCall.subscribe (s.self.topicPrefix ++ "/command") ] ++
      discoveryCalls s.self.topicPrefix s.self.clientId := by
  have hs' : ¬ s.self.server.length = 0 := fun h => hs ((length_eq_zero_iff _).1 h)
  have hc : (if s.self.username.length > 0 && s.self.password.length > 0 then
        connect s.self.clientId (some (s.self.username, s.self.password)) true s
      else connect s.self.clientId none true s)
      = connect s.self.clientId
          (if s.self.username.length > 0 && s.self.password.length > 0
           then some (s.self.username, s.self.password) else none) true s := by
    split <;> rfl
  have hsb : (s.self.server.length == 0) = false := by simpa using hs'
  simp only [reconnect, he, hsb, hc]
  generalize (if s.self.username.length > 0 && s.self.password.length > 0
           then some (s.self.username, s.self.password) else none) = auth
  simp only [connect, Bool.not_true, Bool.or_false, Bool.false_eq_true, if_false, if_true]
  have q0 : ∀ m, alive m s.net = true := fun m => alive_of_quiet m _ hq
  have q1 : ∀ m j, alive m (s.net.drop j) = true := fun m j =>
    alive_of_quiet m _ (quiet_drop j _ hq)
  have q2 : ∀ m, alive m s.net.tail = true := fun m => by
    have := q1 m 1
    rwa [List.drop_one] at this
  rw [publishHADiscovery_out]
  · simp [publish, subscribe, yield_net, yield_live, q0, q1, q2, discoveryCalls, sensorCall]
  · simp [connected, publish, subscribe, yield_net, yield_live, q0, q1, q2]


/-- The calls of `publishHADiscovery` are appended to the trace. -/
theorem publishHADiscovery_extends (s : Sim) :
    ∃ l, (publishHADiscovery s).out = s.out ++ l := by
  by_cases h : connected s = true
  · exact ⟨_, publishHADiscovery_out s h⟩
  · refine ⟨[], ?_⟩
    simp [publishHADiscovery, h]

/-- The calls of a `reconnect()` that gets past its guard: the `connect`, and
after an accepted `connect` the two `online` markers and the subscription,
followed by whatever discovery publishes. -/
theorem reconnect_out (accept : Bool) (s : Sim) (he : s.self.enabled = true)
    (hs : s.self.server ≠ "") :
    ∃ rest, (reconnect true accept s).2.out = s.out ++
      BrokerCall.connect s.self.client.domain s.self.client.port s.self.clientId
          (if s.self.username.length > 0 && s.self.password.length > 0
           then some (s.self.username, s.self.password) else none) ::
        (if accept then
          BrokerCall.publish (s.self.topicPrefix ++ "/status") "online" true ::
          BrokerCall.publish (s.self.topicPrefix ++ "/" ++ s.self.clientId ++ "_death")
            "online" true ::
          BrokerCall.subscribe (s.self.topicPrefix ++ "/command") :: rest
         else []) := by
  have hs' : ¬ s.self.server.length = 0 := fun h => hs ((length_eq_zero_iff _).1 h)
  have hsb : (s.self.server.length == 0) = false := by simpa using hs'
  have hc : (if s.self.username.length > 0 && s.self.password.length > 0 then
        connect s.self.clientId (some (s.self.username, s.self.password)) accept s
      else connect s.self.clientId none accept s)
      = connect s.self.clientId
          (if s.self.username.length > 0 && s.self.password.length > 0
           then some (s.self.username, s.self.password) else none) accept s := by
    split <;> rfl
  simp only [reconnect, he, hsb, hc]
  generalize (if s.self.username.length > 0 && s.self.password.length > 0
           then some (s.self.username, s.self.password) else none) = auth
  cases accept with
  | false =>
    refine ⟨[], ?_⟩
    simp [connect]
  | true =>
    simp only [connect, Bool.not_true, Bool.or_false, Bool.false_eq_true, if_false, if_true]
    generalize hY : subscribe _ _ = Y
    have hYo : Y.out = s.out ++
        [BrokerCall.connect s.self.client.domain s.self.client.port s.self.clientId auth,
         BrokerCall.publish (s.self.topicPrefix ++ "/status") "online" true,
         BrokerCall.publish (s.self.topicPrefix ++ "/" ++ s.self.clientId ++ "_death")
           "online" true,
         BrokerCall.subscribe (s.self.topicPrefix ++ "/command")] := by
      rw [← hY]
      simp [publish, subscribe]
    obtain ⟨l, hl⟩ := publishHADiscovery_extends Y
    refine ⟨l, ?_⟩
    rw [hl, hYo]
    simp

/-- The members of the discovery document, in order. -/
theorem haSensorDoc_eq (tp id m f d u i : String) :
    haSensorDoc tp id m f d u i =
      (if d ≠ "" then [("device_class", JsonVariant.str d)] else []) ++
      [("name", JsonVariant.str f),
       ("state_topic", JsonVariant.str (tp ++ "/sensor/" ++ id ++ "_" ++ m ++ "/state"))] ++
      (if u ≠ "" then [("unit_of_measurement", JsonVariant.str u)] else []) ++
      [("value_template", JsonVariant.str "\x7b\x7b value_json.value\x7d\x7d"),
       ("unique_id", JsonVariant.str (id ++ "_" ++ m)),
       ("state_class", JsonVariant.str "measurement"),
       ("availability_topic", JsonVariant.str (tp ++ "/" ++ id ++ "_death")),
       ("default_entity_id", JsonVariant.str ("sensor." ++ id ++ "_" ++ m)),
       ("entity_category", JsonVariant.str "diagnostic"),
       ("device", JsonVariant.obj
          [("name", JsonVariant.str id), ("model", JsonVariant.str "CC SFS"),
           ("manufacturer", JsonVariant.str "Elegoo"),
           ("identifiers", JsonVariant.arr [JsonVariant.str id])])] ++
      (if i ≠ "" then [("icon", JsonVariant.str i)] else []) := by
  by_cases h : d = "" <;> by_cases h2 : u = "" <;> by_cases h3 : i = "" <;>
    simp [haSensorDoc, JsonObject.set, h, h2, h3, length_eq_zero_iff, Nat.pos_iff_ne_zero]

theorem state_topic_get (tp id m f d u i : String) :
    (haSensorDoc tp id m f d u i).get "state_topic"
      = some (.str (tp ++ "/sensor/" ++ id ++ "_" ++ m ++ "/state")) := by
  rw [haSensorDoc_eq]
  by_cases h : d = "" <;> simp [JsonObject.get, h]

theorem availability_topic_get (tp id m f d u i : String) :
    (haSensorDoc tp id m f d u i).get "availability_topic"
      = some (.str (tp ++ "/" ++ id ++ "_death")) := by
  rw [haSensorDoc_eq]
  by_cases h : d = "" <;> by_cases h2 : u = "" <;> simp [JsonObject.get, h, h2]

theorem unique_id_get (tp id m f d u i : String) :
    (haSensorDoc tp id m f d u i).get "unique_id" = some (.str (id ++ "_" ++ m)) := by
  rw [haSensorDoc_eq]
  by_cases h : d = "" <;> by_cases h2 : u = "" <;> simp [JsonObject.get, h, h2]

/-- State left by `updateSettings` when something changed and the new
configuration is enabled with a non-empty host. -/
theorem updateSettings_changed (s : Sim) (sv : String) (p : Int) (u pw id tp : String)
    (hch : s.self.enabled ≠ true ∨ s.self.server ≠ sv ∨ s.self.port ≠ p ∨
      s.self.username ≠ u ∨ s.self.password ≠ pw ∨ s.self.clientId ≠ id ∨
      s.self.topicPrefix ≠ tp)
    (hsv : sv ≠ "") :
    updateSettings true sv p u pw id tp s =
      { self :=
          { client := { live := false, domain := sv, port := p % 65536 }
            enabled := true
            server := sv
            port := p
            username := u
            password := pw
            clientId := id
            topicPrefix := tp
            lastReconnectAttempt := s.self.lastReconnectAttempt }
        net := s.net
        out := s.out ++ (if connected s then [BrokerCall.disconnect] else [])
        attempts := s.attempts } := by
  have hb : ((s.self.enabled != true) || (s.self.server != sv) ||
      (s.self.port != p) || (s.self.username != u) ||
      (s.self.password != pw) || (s.self.clientId != id) ||
      (s.self.topicPrefix != tp)) = true := by
    simpa [or_assoc] using hch
  have hsv' : ¬ sv.length = 0 := fun h => hsv ((length_eq_zero_iff _).1 h)
  have hpos : 0 < sv.length := Nat.pos_of_ne_zero hsv'
  cases hl : s.self.client.live with
  | true =>
    simp only [updateSettings, hb, connected, hl, disconnect, setServer, if_true]
    simp [hpos]
  | false =>
    simp only [updateSettings, hb, connected, hl, disconnect, setServer, if_true]
    simp [hpos, hl]

end MqttClient

/-! ## Claims -/

namespace MqttClient

/-- C1: along every sequence of calls started with an empty attempt log, driven
by a non-decreasing `millis()` clock that does not wrap, any two consecutive
passes of the interval gate of `loop()` that call `reconnect()` happen at
times `t1 < t2` with `t2 - t1 ≥ 30000`, whatever the broker and the link do. -/
theorem reconnect_attempts_spaced (cmds : List Cmd) (s : Sim) (hs : s.attempts = [])
    (hmono : (clock cmds).Pairwise (· ≤ ·)) (hlt : ∀ t ∈ clock cmds, t < 2 ^ 32) :
    ∀ t1 t2, [t1, t2] <:+: (run cmds s).attempts → t1 < t2 ∧ 30000 ≤ t2 - t1 := by
  intro t1 t2 hin
  have h := attempts_chain cmds s (by rw [hs]; exact List.chain'_nil)
    (by intro a ha; rw [hs] at ha; simp at ha) hmono hlt
  obtain ⟨a, b, hab⟩ := hin
  rw [← hab] at h
  have h2 : List.Chain' Spaced [t1, t2] := h.left_of_append.right_of_append
  have h3 : Spaced t1 t2 := List.chain'_pair.1 h2
  exact h3

/-- Witness of C1: a refused attempt at 30000 ms, ticks at 45000 ms and 59999 ms
that do not pass the gate, and a second attempt at 60000 ms. -/
theorem reconnect_attempts_spaced_witness :
    (run exampleRun (start [])).attempts = [30000, 60000] ∧
    (30000 < 60000 ∧ 30000 ≤ 60000 - 30000) :=
  ⟨by decide, reconnect_attempts_spaced exampleRun (start []) rfl (by decide) (by decide)
    30000 60000 ⟨[], [], by decide⟩⟩

/-- C2, as stated, fails: with the link down, `loop()` still passes the
interval gate and overwrites `lastReconnectAttempt`. -/
theorem loop_link_down_overwrites_timestamp :
    ¬ ∀ (s : Sim) (t : Nat) (accept : Bool),
      s.self.enabled = true → s.self.server ≠ "" → connected s = false →
      (loop t false accept s).self.lastReconnectAttempt = s.self.lastReconnectAttempt := by
  intro h
  exact absurd (h exampleConfig 30000 true (by decide) (by decide) (by decide)) (by decide)

/-- C2, amended: enabled, non-empty host, not connected, link down. `loop()`
makes no call on the broker session and consumes no link event; of the object
it changes `lastReconnectAttempt` only, which becomes the `millis()` reading
when the reconnect interval has elapsed and is unchanged otherwise. -/
theorem loop_link_down_effect (s : Sim) (t : Nat) (accept : Bool)
    (he : s.self.enabled = true) (hs : s.self.server ≠ "") (hl : connected s = false) :
    (loop t false accept s).out = s.out ∧ (loop t false accept s).net = s.net ∧
    (loop t false accept s).self = { s.self with lastReconnectAttempt :=
        (if RECONNECT_INTERVAL ≤ elapsed (t % ULONG_RANGE) s.self.lastReconnectAttempt
        then t % ULONG_RANGE else s.self.lastReconnectAttempt) } := by
  have hs' : ¬ s.self.server.length = 0 := fun h => hs ((length_eq_zero_iff _).1 h)
  simp only [connected] at hl
  by_cases hg : elapsed (t % ULONG_RANGE) s.self.lastReconnectAttempt ≥ RECONNECT_INTERVAL
  · simp [loop, reconnect, he, hs', hl, connected, hg]
  · have hg' : ¬ RECONNECT_INTERVAL ≤ elapsed (t % ULONG_RANGE) s.self.lastReconnectAttempt := hg
    rw [if_neg hg']
    have hloop : loop t false accept s = s := by
      simp [loop, he, hs', hl, connected, hg]
    rw [hloop]
    exact ⟨rfl, rfl, rfl⟩

/-- Witness of amended C2: the scenario configuration at 30000 ms. -/
theorem loop_link_down_effect_witness :
    (loop 30000 false true exampleConfig).out = exampleConfig.out ∧
    (loop 30000 false true exampleConfig).net = exampleConfig.net ∧
    (loop 30000 false true exampleConfig).self = { exampleConfig.self with lastReconnectAttempt :=
        (if RECONNECT_INTERVAL ≤ elapsed (30000 % ULONG_RANGE) exampleConfig.self.lastReconnectAttempt
        then 30000 % ULONG_RANGE else exampleConfig.self.lastReconnectAttempt) } :=
  loop_link_down_effect exampleConfig 30000 true (by decide) (by decide) (by decide)

/-- C3: with a connected session, `updateSettings` disconnects if and only if
one of the seven fields differs; the stored configuration afterwards is the new
one; no `connect` call is added and no attempt is logged; with an unchanged
configuration the whole state is unchanged. -/
theorem updateSettings_disconnects_iff_changed (s : Sim) (e : Bool) (sv : String) (p : Int)
    (u pw id tp : String) (hlive : connected s = true) :
    let changed : Prop := s.self.enabled ≠ e ∨ s.self.server ≠ sv ∨ s.self.port ≠ p ∨
      s.self.username ≠ u ∨ s.self.password ≠ pw ∨ s.self.clientId ≠ id ∨ s.self.topicPrefix ≠ tp
    let s' := updateSettings e sv p u pw id tp s
    (connected s' = false ↔ changed) ∧
    (changed → s'.out = s.out ++ [BrokerCall.disconnect]) ∧
    (¬ changed → s' = s) ∧
    (s'.self.enabled = e ∧ s'.self.server = sv ∧ s'.self.port = p ∧ s'.self.username = u ∧
      s'.self.password = pw ∧ s'.self.clientId = id ∧ s'.self.topicPrefix = tp) ∧
    (∀ d q i a, BrokerCall.connect d q i a ∈ s'.out → BrokerCall.connect d q i a ∈ s.out) ∧
    s'.attempts = s.attempts := by
  intro changed s'
  have hfields : s'.self.enabled = e ∧ s'.self.server = sv ∧ s'.self.port = p ∧
      s'.self.username = u ∧ s'.self.password = pw ∧ s'.self.clientId = id ∧
      s'.self.topicPrefix = tp ∧ s'.attempts = s.attempts := by
    simp only [s', updateSettings, connected, disconnect, setServer]
    split_ifs <;> simp
  by_cases hc : changed
  · have hb : ((s.self.enabled != e) || (s.self.server != sv) ||
      (s.self.port != p) || (s.self.username != u) ||
      (s.self.password != pw) || (s.self.clientId != id) ||
      (s.self.topicPrefix != tp)) = true := by
      simpa [changed, or_assoc] using hc
    have hl : connected s' = false ∧ s'.out = s.out ++ [BrokerCall.disconnect] := by
      simp only [connected] at hlive
      simp only [s', updateSettings, hb, connected, hlive, disconnect, setServer, if_true]
      split_ifs <;> simp
    refine ⟨⟨fun _ => hc, fun _ => hl.1⟩, fun _ => hl.2, fun h => absurd hc h,
      ⟨hfields.1, hfields.2.1, hfields.2.2.1, hfields.2.2.2.1, hfields.2.2.2.2.1,
        hfields.2.2.2.2.2.1, hfields.2.2.2.2.2.2.1⟩, ?_, hfields.2.2.2.2.2.2.2⟩
    intro d q i a hm
    rw [hl.2] at hm
    simpa using hm
  · have hn : s.self.enabled = e ∧ s.self.server = sv ∧ s.self.port = p ∧
        s.self.username = u ∧ s.self.password = pw ∧ s.self.clientId = id ∧
        s.self.topicPrefix = tp := by
      simpa [changed, not_or] using hc
    obtain ⟨h1, h2, h3, h4, h5, h6, h7⟩ := hn
    have hs : s' = s := by
      simp only [s', updateSettings]
      subst h1 h2 h3 h4 h5 h6 h7
      simp
    refine ⟨⟨fun h => ?_, fun h => absurd h hc⟩, fun h => absurd h hc, fun _ => hs,
      ⟨hfields.1, hfields.2.1, hfields.2.2.1, hfields.2.2.2.1, hfields.2.2.2.2.1,
        hfields.2.2.2.2.2.1, hfields.2.2.2.2.2.2.1⟩, ?_, hfields.2.2.2.2.2.2.2⟩
    · rw [hs, hlive] at h
      exact absurd h (by decide)
    · intro d q i a hm
      rw [hs] at hm
      exact hm

/-- Witness of C3: changing the port of a connected session disconnects it. -/
theorem updateSettings_disconnects_iff_changed_witness :
    connected (updateSettings true "broker.local" 8883 "" "" "dev1" "homeassistant"
      (exampleSession [])) = false :=
  (updateSettings_disconnects_iff_changed (exampleSession []) true "broker.local" 8883 "" ""
    "dev1" "homeassistant" (by decide)).1.2 (by decide)

/-- C4: while the session is not connected, each of the seven publish
operations returns the state it was given: no call on the broker session, no
change of the object, for every argument. -/
theorem publish_disconnected_noop (s : Sim) (h : connected s = false) :
    (∀ b, publishMovementData b s = s) ∧ (∀ b, publishRunoutData b s = s) ∧
    (∀ b, publishConnectionData b s = s) ∧ (∀ st, publishPrinterStatus st s = s) ∧
    (∀ hp w, publishSystemHealth hp w s = s) ∧ publishHADiscovery s = s ∧
    (∀ a b c d e, publishHASensorConfig a b c d e s = s) := by
  simp [publishMovementData, publishRunoutData, publishConnectionData, publishPrinterStatus,
    publishSystemHealth, publishHADiscovery, publishHASensorConfig, h]

/-- Witness of C4: the scenario configuration before any connection. -/
theorem publish_disconnected_noop_witness :
    (∀ b, publishMovementData b exampleConfig = exampleConfig) ∧
    (∀ b, publishRunoutData b exampleConfig = exampleConfig) ∧
    (∀ b, publishConnectionData b exampleConfig = exampleConfig) ∧
    (∀ st, publishPrinterStatus st exampleConfig = exampleConfig) ∧
    (∀ hp w, publishSystemHealth hp w exampleConfig = exampleConfig) ∧
    publishHADiscovery exampleConfig = exampleConfig ∧
    (∀ a b c d e, publishHASensorConfig a b c d e exampleConfig = exampleConfig) :=
  publish_disconnected_noop exampleConfig (by decide)

/-- C5: in every state reached from the constructor's state by calls of the
public interface and session drops, `enabled = false` implies that the session
is not connected and that `loop()` and every publish operation return the state
unchanged, whatever the other fields. -/
theorem disabled_is_inert (cmds : List Cmd) (net : List Bool)
    (hdis : (run cmds (start net)).self.enabled = false) :
    let s := run cmds (start net)
    connected s = false ∧ (∀ t wifi accept, loop t wifi accept s = s) ∧
    (∀ b, publishMovementData b s = s) ∧ (∀ b, publishRunoutData b s = s) ∧
    (∀ b, publishConnectionData b s = s) ∧ (∀ st, publishPrinterStatus st s = s) ∧
    (∀ hp w, publishSystemHealth hp w s = s) ∧ publishHADiscovery s = s ∧
    (∀ a b c d e, publishHASensorConfig a b c d e s = s) := by
  intro s
  have hinv : SessionInv s :=
    run_sessionInv cmds (start net) (fun h => absurd h (by simp [connected, start, new]))
  have hc : connected s = false := by
    cases hcs : connected s with
    | false => rfl
    | true =>
      have := (hinv hcs).1
      rw [hdis] at this
      exact absurd this (by decide)
  have he : s.self.enabled = false := hdis
  refine ⟨hc, ?_, ?_⟩
  · intro t wifi accept
    simp [loop, he]
  · simp [publishMovementData, publishRunoutData, publishConnectionData, publishPrinterStatus,
      publishSystemHealth, publishHADiscovery, publishHASensorConfig, hc]

/-- Witness of C5: the client connects, then the configuration is disabled. -/
theorem disabled_is_inert_witness :
    connected (run [Cmd.updateSettings true "broker.local" 1883 "" "" "dev1" "homeassistant",
      Cmd.loop 30000 true true,
      Cmd.updateSettings false "broker.local" 1883 "" "" "dev1" "homeassistant"]
      (start [])) = false :=
  (disabled_is_inert [Cmd.updateSettings true "broker.local" 1883 "" "" "dev1" "homeassistant",
      Cmd.loop 30000 true true,
      Cmd.updateSettings false "broker.local" 1883 "" "" "dev1" "homeassistant"] []
    (by decide)).1

/-- C6: `getStatus` changes no state and classifies by strict priority:
`Disabled` when not enabled; otherwise `WiFi not connected` when the link is
down; otherwise `Connected to <server>:<port>` when the session is connected;
otherwise `Disconnected from <server>:<port>`. -/
theorem getStatus_priority (wifi : Bool) (s : Sim) :
    (getStatus wifi s).2 = s ∧
    (s.self.enabled = false → (getStatus wifi s).1 = "Disabled") ∧
    (s.self.enabled = true → wifi = false → (getStatus wifi s).1 = "WiFi not connected") ∧
    (s.self.enabled = true → wifi = true → connected s = true →
      (getStatus wifi s).1 = "Connected to " ++ s.self.server ++ ":" ++ toString s.self.port) ∧
    (s.self.enabled = true → wifi = true → connected s = false →
      (getStatus wifi s).1
        = "Disconnected from " ++ s.self.server ++ ":" ++ toString s.self.port) := by
  refine ⟨?_, ?_, ?_, ?_, ?_⟩
  · unfold getStatus; split_ifs <;> rfl
  · intro h; simp [getStatus, h]
  · intro h w; simp [getStatus, h, w]
  · intro h w c; simp [getStatus, h, w, c]
  · intro h w c; simp [getStatus, h, w, c]

/-- Witness of C6: a connected session is reported as link down when the link
is down, and with its endpoint when the link is up. -/
theorem getStatus_priority_witness :
    (getStatus false (exampleSession [])).1 = "WiFi not connected" ∧
    (getStatus true (exampleSession [])).1 = "Connected to broker.local:1883" :=
  ⟨(getStatus_priority false (exampleSession [])).2.2.1 (by decide) rfl,
   ((getStatus_priority true (exampleSession [])).2.2.2.1 (by decide) rfl (by decide)).trans
     (by decide)⟩

/-- C7: enabled, non-empty host, session not connected, link up, interval
elapsed, broker accepting, no link event during the call. One `loop()` call
makes exactly these calls, in this order: one `connect` (with credentials only
when user name and password are both non-empty); a retained `online` to
`<prefix>/status`; a retained `online` to `<prefix>/<clientId>_death`; a
subscribe to `<prefix>/command`; the five retained discovery publishes to
`<prefix>/sensor/<clientId>_<m>/config`, `m` = movement, runout, connection,
heap_usage, wifi_signal. -/
theorem loop_connect_sequence (s : Sim) (t : Nat) (he : s.self.enabled = true) (hs : s.self.server ≠ "")
    (hl : connected s = false)
    (hgate : RECONNECT_INTERVAL ≤ elapsed (t % ULONG_RANGE) s.self.lastReconnectAttempt)
    (hq : ∀ d ∈ s.net, d = false) :
    (loop t true true s).out = s.out ++
      [ BrokerCall.connect s.self.client.domain s.self.client.port s.self.clientId
          (if s.self.username.length > 0 && s.self.password.length > 0
           then some (s.self.username, s.self.password) else none),
        BrokerCall.publish (s.self.topicPrefix ++ "/status") "online" true,
        BrokerCall.publish (s.self.topicPrefix ++ "/" ++ s.self.clientId ++ "_death") "online" true,
        BrokerCall.subscribe (s.self.topicPrefix ++ "/command") ] ++
      discoveryCalls s.self.topicPrefix s.self.clientId := by
  have hs' : ¬ s.self.server.length = 0 := fun h => hs ((length_eq_zero_iff _).1 h)
  simp only [connected] at hl
  have h := reconnect_out_quiet
    { s with self := { s.self with lastReconnectAttempt := t % ULONG_RANGE },
             attempts := s.attempts ++ [t % ULONG_RANGE] } he hs hq
  simpa [loop, he, hs', hl, connected, hgate] using h

/-- Witness of C7: the scenario configuration, first tick at 30000 ms. -/
theorem loop_connect_sequence_witness :
    (loop 30000 true true exampleConfig).out =
      [ BrokerCall.connect "broker.local" 1883 "dev1" none,
        BrokerCall.publish "homeassistant/status" "online" true,
        BrokerCall.publish "homeassistant/dev1_death" "online" true,
        BrokerCall.subscribe "homeassistant/command",
        BrokerCall.publish "homeassistant/sensor/dev1_movement/config"
          (serializeJson (haSensorDoc "homeassistant" "dev1" "movement" "Movement Sensor" "" ""
            "mdi:motion-sensor")) true,
        BrokerCall.publish "homeassistant/sensor/dev1_runout/config"
          (serializeJson (haSensorDoc "homeassistant" "dev1" "runout" "Filament Runout" "" ""
            "mdi:printer-3d-nozzle-alert")) true,
        BrokerCall.publish "homeassistant/sensor/dev1_connection/config"
          (serializeJson (haSensorDoc "homeassistant" "dev1" "connection" "Printer Connection" ""
            "" "mdi:printer")) true,
        BrokerCall.publish "homeassistant/sensor/dev1_heap_usage/config"
          (serializeJson (haSensorDoc "homeassistant" "dev1" "heap_usage" "Heap Usage" "" "%"
            "mdi:memory")) true,
        BrokerCall.publish "homeassistant/sensor/dev1_wifi_signal/config"
          (serializeJson (haSensorDoc "homeassistant" "dev1" "wifi_signal" "WiFi Signal"
            "signal_strength" "dBm" "mdi:wifi")) true ] :=
  (loop_connect_sequence exampleConfig 30000 (by decide) (by decide) (by decide) (by decide)
    (by decide)).trans (by rfl)

/-- C8: for `k` from 0 to 5, when the session is connected up to the publish of
entry `k` and is lost during one of the blocking calls between that publish
and the guard of entry `k + 1` (for `k = 0`: is not connected at entry; for
`k = 5`: is lost at or after the last publish), `publishHADiscovery` makes
exactly the first `k` of the five discovery publishes, in source order, and
returns. -/
theorem publishHADiscovery_drop (k : Nat) (s : Sim) (n : Nat) (rest : List Bool) (hk : k ≤ 5)
    (h0 : k = 0 → connected s = false)
    (h1 : 1 ≤ k → connected s = true ∧ s.net = List.replicate n false ++ true :: rest ∧
      3 * (k - 1) ≤ n ∧ (k < 5 → n < 3 * k)) :
    (publishHADiscovery s).out
      = s.out ++ (discoveryCalls s.self.topicPrefix s.self.clientId).take k := by
  rcases Nat.eq_zero_or_pos k with hz | hpos
  · subst hz
    simp [publishHADiscovery, h0 rfl]
  · obtain ⟨hl, hn, lo, hi⟩ := h1 hpos
    rw [publishHADiscovery_out s hl, hn]
    simp only [alive_replicate]
    have hi' : k = 5 ∨ n < 3 * k := by
      rcases Nat.lt_or_ge k 5 with h | h
      · exact Or.inr (hi h)
      · exact Or.inl (by omega)
    clear hi h0 h1 hn
    by_cases a3 : 3 ≤ n <;> by_cases a6 : 6 ≤ n <;> by_cases a9 : 9 ≤ n <;>
      by_cases a12 : 12 ≤ n <;> interval_cases k <;>
      first
        | (exfalso; omega)
        | simp [a3, a6, a9, a12, discoveryCalls, sensorCall]

/-- Witness of C8: the session is lost during the `client.loop()` that follows
the second entry; movement and runout are published, the other three are not. -/
theorem publishHADiscovery_drop_witness :
    (publishHADiscovery (exampleSession [false, false, false, false, true])).out =
      [ BrokerCall.publish "homeassistant/sensor/dev1_movement/config"
          (serializeJson (haSensorDoc "homeassistant" "dev1" "movement" "Movement Sensor" "" ""
            "mdi:motion-sensor")) true,
        BrokerCall.publish "homeassistant/sensor/dev1_runout/config"
          (serializeJson (haSensorDoc "homeassistant" "dev1" "runout" "Filament Runout" "" ""
            "mdi:printer-3d-nozzle-alert")) true ] :=
  (publishHADiscovery_drop 2 (exampleSession [false, false, false, false, true]) 4 []
    (by decide) (by decide) (by decide)).trans (by rfl)

/-- C9: while connected, `publishHASensorConfig` publishes the serialised
document to the config topic, retained; the document has the key
`device_class`, `unit_of_measurement`, `icon` exactly when the argument
`deviceClass`, `unit`, `icon` is non-empty, and the value is that argument. -/
theorem haSensorConfig_optional_keys (s : Sim) (sensorName friendlyName deviceClass unit icon : String)
    (hlive : connected s = true) :
    let doc := haSensorDoc s.self.topicPrefix s.self.clientId sensorName friendlyName deviceClass
      unit icon
    (publishHASensorConfig sensorName friendlyName deviceClass unit icon s).out
      = s.out ++ [BrokerCall.publish (configTopic s.self.topicPrefix s.self.clientId sensorName) (serializeJson doc) true] ∧
    doc.get "device_class" = (if deviceClass ≠ "" then some (.str deviceClass) else none) ∧
    doc.get "unit_of_measurement" = (if unit ≠ "" then some (.str unit) else none) ∧
    doc.get "icon" = (if icon ≠ "" then some (.str icon) else none) := by
  intro doc
  refine ⟨?_, ?_, ?_, ?_⟩
  · simp [publishHASensorConfig, hlive, publish, doc]
  · by_cases h : deviceClass = "" <;> by_cases h2 : unit = "" <;> by_cases h3 : icon = "" <;>
      simp [doc, haSensorDoc, JsonObject.set, JsonObject.get, h, h2, h3, length_eq_zero_iff,
        Nat.pos_iff_ne_zero]
  · by_cases h : deviceClass = "" <;> by_cases h2 : unit = "" <;> by_cases h3 : icon = "" <;>
      simp [doc, haSensorDoc, JsonObject.set, JsonObject.get, h, h2, h3, length_eq_zero_iff,
        Nat.pos_iff_ne_zero]
  · by_cases h : deviceClass = "" <;> by_cases h2 : unit = "" <;> by_cases h3 : icon = "" <;>
      simp [doc, haSensorDoc, JsonObject.set, JsonObject.get, h, h2, h3, length_eq_zero_iff,
        Nat.pos_iff_ne_zero]

/-- Witness of C9: the `wifi_signal` descriptor defines a device class. -/
theorem haSensorConfig_optional_keys_witness :
    JsonObject.get (haSensorDoc "homeassistant" "dev1" "wifi_signal" "WiFi Signal"
      "signal_strength" "dBm" "mdi:wifi") "device_class"
      = some (JsonVariant.str "signal_strength") :=
  ((haSensorConfig_optional_keys (exampleSession []) "wifi_signal" "WiFi Signal"
    "signal_strength" "dBm" "mdi:wifi" (by decide)).2.1).trans (if_pos (by decide))

/-- C10: while connected, the three boolean telemetry operations make one
retained publish, to the state topic of their metric, of the JSON object whose
only member `value` is 1 for true and 0 for false; `publishPrinterStatus` makes
one retained publish of the raw string to `<prefix>/printer/status`;
`publishSystemHealth` makes two retained publishes, heap usage first and Wi-Fi
signal second, whatever happens to the link during the first. -/
theorem telemetry_publishes (s : Sim) (hlive : connected s = true) :
    (∀ b, (publishMovementData b s).out = s.out ++
      [BrokerCall.publish (s.self.topicPrefix ++ "/sensor/" ++ s.self.clientId ++ "_movement/state")
        (if b then "\x7b\"value\":1\x7d" else "\x7b\"value\":0\x7d") true]) ∧
    (∀ b, (publishRunoutData b s).out = s.out ++
      [BrokerCall.publish (s.self.topicPrefix ++ "/sensor/" ++ s.self.clientId ++ "_runout/state")
        (if b then "\x7b\"value\":1\x7d" else "\x7b\"value\":0\x7d") true]) ∧
    (∀ b, (publishConnectionData b s).out = s.out ++
      [BrokerCall.publish
        (s.self.topicPrefix ++ "/sensor/" ++ s.self.clientId ++ "_connection/state")
        (if b then "\x7b\"value\":1\x7d" else "\x7b\"value\":0\x7d") true]) ∧
    (∀ st, (publishPrinterStatus st s).out = s.out ++
      [BrokerCall.publish (s.self.topicPrefix ++ "/printer/status") st true]) ∧
    (∀ h w, (publishSystemHealth h w s).out = s.out ++
      [BrokerCall.publish
        (s.self.topicPrefix ++ "/sensor/" ++ s.self.clientId ++ "_heap_usage/state")
        ("\x7b\"value\":" ++ toString h ++ "\x7d") true,
       BrokerCall.publish
        (s.self.topicPrefix ++ "/sensor/" ++ s.self.clientId ++ "_wifi_signal/state")
        ("\x7b\"value\":" ++ toString w ++ "\x7d") true]) := by
  refine ⟨?_, ?_, ?_, ?_, ?_⟩
  · intro b; cases b <;> simp [publishMovementData, hlive, serializeJson_value, publish] <;> decide
  · intro b; cases b <;> simp [publishRunoutData, hlive, serializeJson_value, publish] <;> decide
  · intro b; cases b <;> simp [publishConnectionData, hlive, serializeJson_value, publish] <;> decide
  · intro st; simp [publishPrinterStatus, hlive, publish]
  · intro h w
    simp [publishSystemHealth, hlive, serializeJson_value, publish]

/-- Witness of C10: the session is lost during the heap-usage publish and the
Wi-Fi publish is made nevertheless. -/
theorem telemetry_publishes_witness :
    (publishSystemHealth 42 (-67) (exampleSession [true])).out =
      [ BrokerCall.publish "homeassistant/sensor/dev1_heap_usage/state" "\x7b\"value\":42\x7d" true,
        BrokerCall.publish "homeassistant/sensor/dev1_wifi_signal/state" "\x7b\"value\":-67\x7d"
          true ] :=
  ((telemetry_publishes (exampleSession [true]) (by decide)).2.2.2.2 42 (-67)).trans (by decide)

/-- C11, as stated, fails: a session connected since the attempt at 30000 ms
gets a new port at 31000 ms; the tick at 31000 ms, link up, makes no call on
the broker session, because the reconnect interval has not elapsed. -/
theorem loop_after_updateSettings_waits :
    ¬ ∀ (s : Sim) (sv : String) (p : Int) (u pw id tp : String) (t : Nat) (accept : Bool),
      (s.self.enabled ≠ true ∨ s.self.server ≠ sv ∨ s.self.port ≠ p ∨ s.self.username ≠ u ∨
        s.self.password ≠ pw ∨ s.self.clientId ≠ id ∨ s.self.topicPrefix ≠ tp) →
      sv ≠ "" →
      ∃ auth rest, (loop t true accept (updateSettings true sv p u pw id tp s)).out
        = (updateSettings true sv p u pw id tp s).out ++ BrokerCall.connect sv p id auth :: rest := by
  intro h
  obtain ⟨auth, rest, hr⟩ := h (exampleSession []) "broker.local" 8883 "" "" "dev1"
    "homeassistant" 31000 true (by decide) (by decide)
  have e1 : (loop 31000 true true (updateSettings true "broker.local" 8883 "" "" "dev1"
      "homeassistant" (exampleSession []))).out = [BrokerCall.disconnect] := by decide
  have e2 : (updateSettings true "broker.local" 8883 "" "" "dev1"
      "homeassistant" (exampleSession [])).out = [BrokerCall.disconnect] := by decide
  rw [e1, e2] at hr
  simp at hr

/-- C11, amended: after `updateSettings` with a changed configuration that is
enabled with a non-empty host and a port in 0..65535, the session is not
connected and `updateSettings` has made no `connect` call. The next `loop()`
with the link up calls `connect` with the new client id and credentials
against the new host and port when the reconnect interval has elapsed since
`lastReconnectAttempt`, which `updateSettings` leaves as it was; otherwise
that `loop()` call changes nothing. -/
theorem loop_after_updateSettings (s : Sim) (sv : String) (p : Int) (u pw id tp : String)
    (t : Nat) (accept : Bool)
    (hch : s.self.enabled ≠ true ∨ s.self.server ≠ sv ∨ s.self.port ≠ p ∨
      s.self.username ≠ u ∨ s.self.password ≠ pw ∨ s.self.clientId ≠ id ∨
      s.self.topicPrefix ≠ tp)
    (hsv : sv ≠ "") (hp0 : 0 ≤ p) (hp1 : p < 65536) :
    let s' := updateSettings true sv p u pw id tp s
    connected s' = false ∧
    s'.out = s.out ++ (if connected s then [BrokerCall.disconnect] else []) ∧
    s'.self.lastReconnectAttempt = s.self.lastReconnectAttempt ∧
    (RECONNECT_INTERVAL ≤ elapsed (t % ULONG_RANGE) s.self.lastReconnectAttempt →
      ∃ rest, (loop t true accept s').out = s'.out ++
        BrokerCall.connect sv p id (if u ≠ "" ∧ pw ≠ "" then some (u, pw) else none) :: rest) ∧
    (¬ RECONNECT_INTERVAL ≤ elapsed (t % ULONG_RANGE) s.self.lastReconnectAttempt →
      loop t true accept s' = s') := by
  intro s'
  have hs' : s' = _ := updateSettings_changed s sv p u pw id tp hch hsv
  have hsvl : ¬ sv.length = 0 := fun h => hsv ((length_eq_zero_iff _).1 h)
  have hmod : p % 65536 = p := Int.emod_eq_of_lt hp0 hp1
  refine ⟨by rw [hs']; rfl, by rw [hs'], by rw [hs'], ?_, ?_⟩
  · intro hg
    have hloop : loop t true accept s' = (reconnect true accept
        { s' with self := { s'.self with lastReconnectAttempt := t % ULONG_RANGE },
                  attempts := s'.attempts ++ [t % ULONG_RANGE] }).2 := by
      rw [hs']
      simp [loop, connected, hsvl, hg]
    obtain ⟨rest, hr⟩ := reconnect_out accept
      { s' with self := { s'.self with lastReconnectAttempt := t % ULONG_RANGE },
                attempts := s'.attempts ++ [t % ULONG_RANGE] }
      (by rw [hs']) (by rw [hs']; exact hsv)
    have hauth : (if u.length > 0 && pw.length > 0 then some (u, pw) else none)
        = (if u ≠ "" ∧ pw ≠ "" then some (u, pw) else none) := by
      by_cases h1 : u = "" <;> by_cases h2 : pw = "" <;>
        simp [h1, h2, length_eq_zero_iff, Nat.pos_iff_ne_zero]
    refine ⟨(if accept then
        BrokerCall.publish (tp ++ "/status") "online" true ::
        BrokerCall.publish (tp ++ "/" ++ id ++ "_death") "online" true ::
        BrokerCall.subscribe (tp ++ "/command") :: rest
      else []), ?_⟩
    rw [hloop, hr, hs']
    dsimp only
    rw [hmod, hauth]
  · intro hg
    rw [hs']
    simp [loop, connected, hsvl, hg]

/-- Witness of amended C11: the port of a connected session is changed; the
tick at 60000 ms, 30000 ms after the last attempt, connects to the new port. -/
theorem loop_after_updateSettings_witness :
    ∃ rest, (loop 60000 true true (updateSettings true "broker.local" 8883 "" "" "dev1"
        "homeassistant" (exampleSession []))).out
      = (updateSettings true "broker.local" 8883 "" "" "dev1" "homeassistant"
          (exampleSession [])).out ++
        BrokerCall.connect "broker.local" 8883 "dev1" none :: rest :=
  (loop_after_updateSettings (exampleSession []) "broker.local" 8883 "" "" "dev1"
    "homeassistant" 60000 true (by decide) (by decide) (by decide) (by decide)).2.2.2.1
    (by decide)

/-- C12: for every configuration, the `state_topic` of a sensor's discovery
document is the topic the telemetry operation of that metric publishes to
(movement, runout, connection: the boolean operations; heap_usage and
wifi_signal: the two publishes of `publishSystemHealth`), and the
`availability_topic` of every discovery document is the topic of the second
retained `online` marker of an accepted `reconnect()`. -/
theorem discovery_topics_match (tp id : String) :
    (∀ s : Sim, s.self.topicPrefix = tp → s.self.clientId = id → connected s = true →
      (∀ b f d u i, ∃ topic payload,
        (publishMovementData b s).out = s.out ++ [BrokerCall.publish topic payload true] ∧
        (haSensorDoc tp id "movement" f d u i).get "state_topic"
          = some (JsonVariant.str topic)) ∧
      (∀ b f d u i, ∃ topic payload,
        (publishRunoutData b s).out = s.out ++ [BrokerCall.publish topic payload true] ∧
        (haSensorDoc tp id "runout" f d u i).get "state_topic"
          = some (JsonVariant.str topic)) ∧
      (∀ b f d u i, ∃ topic payload,
        (publishConnectionData b s).out = s.out ++ [BrokerCall.publish topic payload true] ∧
        (haSensorDoc tp id "connection" f d u i).get "state_topic"
          = some (JsonVariant.str topic)) ∧
      (∀ h w f d u i f2 d2 u2 i2, ∃ heapTopic heapPayload wifiTopic wifiPayload,
        (publishSystemHealth h w s).out = s.out ++
          [BrokerCall.publish heapTopic heapPayload true,
           BrokerCall.publish wifiTopic wifiPayload true] ∧
        (haSensorDoc tp id "heap_usage" f d u i).get "state_topic"
          = some (JsonVariant.str heapTopic) ∧
        (haSensorDoc tp id "wifi_signal" f2 d2 u2 i2).get "state_topic"
          = some (JsonVariant.str wifiTopic))) ∧
    (∀ s : Sim, s.self.topicPrefix = tp → s.self.clientId = id → s.self.enabled = true →
      s.self.server ≠ "" →
      ∃ c statusTopic deathTopic rest,
        (reconnect true true s).2.out = s.out ++
          c :: BrokerCall.publish statusTopic "online" true ::
            BrokerCall.publish deathTopic "online" true :: rest ∧
        deathTopic = tp ++ "/" ++ id ++ "_death" ∧
        ∀ m f d u i, (haSensorDoc tp id m f d u i).get "availability_topic"
          = some (JsonVariant.str deathTopic)) := by
  have key : ∀ (m : String) (f d u i : String) (lit : String), lit = "_" ++ m ++ "/state" →
      (haSensorDoc tp id m f d u i).get "state_topic"
        = some (JsonVariant.str (tp ++ "/sensor/" ++ id ++ lit)) := by
    intro m f d u i lit hlit
    rw [state_topic_get, hlit]
    simp [String.append_assoc]
  refine ⟨?_, ?_⟩
  · intro s htp hid hl
    simp only [connected] at hl
    refine ⟨?_, ?_, ?_, ?_⟩
    · intro b f d u i
      refine ⟨_,
        (serializeJson (JsonObject.set [] "value" (JsonVariant.int (if b then 1 else 0)))),
        ?_, key "movement" f d u i "_movement/state" (by decide)⟩
      simp [publishMovementData, connected, hl, publish, htp, hid]
    · intro b f d u i
      refine ⟨_,
        (serializeJson (JsonObject.set [] "value" (JsonVariant.int (if b then 1 else 0)))),
        ?_, key "runout" f d u i "_runout/state" (by decide)⟩
      simp [publishRunoutData, connected, hl, publish, htp, hid]
    · intro b f d u i
      refine ⟨_,
        (serializeJson (JsonObject.set [] "value" (JsonVariant.int (if b then 1 else 0)))),
        ?_, key "connection" f d u i "_connection/state" (by decide)⟩
      simp [publishConnectionData, connected, hl, publish, htp, hid]
    · intro h w f d u i f2 d2 u2 i2
      refine ⟨_, serializeJson (JsonObject.set [] "value" (JsonVariant.int h)), _,
        serializeJson (JsonObject.set [] "value" (JsonVariant.int w)), ?_,
        key "heap_usage" f d u i "_heap_usage/state" (by decide),
        key "wifi_signal" f2 d2 u2 i2 "_wifi_signal/state" (by decide)⟩
      simp [publishSystemHealth, connected, hl, publish, htp, hid]
  · intro s htp hid he hs
    obtain ⟨rest, hr⟩ := reconnect_out true s he hs
    rw [htp, hid] at hr
    simp only [if_true] at hr
    exact ⟨_, _, _, _, hr, rfl, fun m f d u i => availability_topic_get tp id m f d u i⟩

/-- Witness of C12: the movement sensor of the scenario configuration. -/
theorem discovery_topics_match_witness :
    ∃ topic payload,
      (publishMovementData true (exampleSession [])).out
        = (exampleSession []).out ++ [BrokerCall.publish topic payload true] ∧
      (haSensorDoc "homeassistant" "dev1" "movement" "Movement Sensor" "" ""
        "mdi:motion-sensor").get "state_topic" = some (JsonVariant.str topic) :=
  ((discovery_topics_match "homeassistant" "dev1").1 (exampleSession []) rfl rfl
    (by decide)).1 true "Movement Sensor" "" "" "mdi:motion-sensor"

/-- C13: a `reconnect()` that gets past its guard (enabled, non-empty host,
link up) calls `connect` with the client id, user name and password exactly
when user name and password are both non-empty, and with the client id alone
in every other case. -/
theorem reconnect_authenticates_iff (s : Sim) (accept : Bool) (he : s.self.enabled = true)
    (hs : s.self.server ≠ "") :
    ∃ rest, (reconnect true accept s).2.out = s.out ++
      BrokerCall.connect s.self.client.domain s.self.client.port s.self.clientId
        (if s.self.username ≠ "" ∧ s.self.password ≠ ""
         then some (s.self.username, s.self.password) else none) :: rest := by
  obtain ⟨rest, hr⟩ := reconnect_out accept s he hs
  have hauth : (if s.self.username.length > 0 && s.self.password.length > 0
      then some (s.self.username, s.self.password) else none)
      = (if s.self.username ≠ "" ∧ s.self.password ≠ ""
         then some (s.self.username, s.self.password) else none) := by
    by_cases h1 : s.self.username = "" <;> by_cases h2 : s.self.password = "" <;>
      simp [h1, h2, length_eq_zero_iff, Nat.pos_iff_ne_zero]
  rw [hauth] at hr
  exact ⟨_, hr⟩

/-- Witness of C13: a user name without a password connects anonymously. -/
theorem reconnect_authenticates_iff_witness :
    ∃ rest, (reconnect true false
        (updateSettings true "broker.local" 1883 "user" "" "dev1" "homeassistant" (start []))).2.out
      = [] ++ BrokerCall.connect "broker.local" 1883 "dev1" none :: rest :=
  reconnect_authenticates_iff
    (updateSettings true "broker.local" 1883 "user" "" "dev1" "homeassistant" (start []))
    false (by decide) (by decide)

/-- C14: for every configuration and descriptor, on a connected session
`publishHASensorConfig` publishes to `<prefix>/sensor/<uid>/config` a document
whose `unique_id` is `<uid>`, where `<uid>` is the client id followed by `_`
and the metric name; each of the five publishes of `publishHADiscovery`
(movement, runout, connection, heap_usage, wifi_signal) has this form. -/
theorem unique_id_matches_config_topic (s : Sim) (hl : connected s = true) :
    (∀ m f d u i,
      (publishHASensorConfig m f d u i s).out = s.out ++
        [BrokerCall.publish (s.self.topicPrefix ++ "/sensor/" ++ (s.self.clientId ++ "_" ++ m)
            ++ "/config")
          (serializeJson (haSensorDoc s.self.topicPrefix s.self.clientId m f d u i)) true] ∧
      (haSensorDoc s.self.topicPrefix s.self.clientId m f d u i).get "unique_id"
        = some (JsonVariant.str (s.self.clientId ++ "_" ++ m))) ∧
    (∀ c ∈ discoveryCalls s.self.topicPrefix s.self.clientId, ∃ m doc,
      m ∈ ["movement", "runout", "connection", "heap_usage", "wifi_signal"] ∧
      c = BrokerCall.publish (s.self.topicPrefix ++ "/sensor/" ++ (s.self.clientId ++ "_" ++ m)
            ++ "/config") (serializeJson doc) true ∧
      doc.get "unique_id" = some (JsonVariant.str (s.self.clientId ++ "_" ++ m))) := by
  have ht : ∀ m : String, configTopic s.self.topicPrefix s.self.clientId m
      = s.self.topicPrefix ++ "/sensor/" ++ (s.self.clientId ++ "_" ++ m) ++ "/config" := by
    intro m
    simp [configTopic, String.append_assoc]
  refine ⟨?_, ?_⟩
  · intro m f d u i
    refine ⟨?_, unique_id_get _ _ _ _ _ _ _⟩
    simp only [connected] at hl
    simp [publishHASensorConfig, connected, hl, publish, ht]
  · intro c hc
    simp only [discoveryCalls, List.mem_cons, List.mem_singleton, List.not_mem_nil,
      or_false] at hc
    rcases hc with rfl | rfl | rfl | rfl | rfl
    · exact ⟨"movement", _, by simp, by rw [ht], unique_id_get _ _ _ _ _ _ _⟩
    · exact ⟨"runout", _, by simp, by rw [ht], unique_id_get _ _ _ _ _ _ _⟩
    · exact ⟨"connection", _, by simp, by rw [ht], unique_id_get _ _ _ _ _ _ _⟩
    · exact ⟨"heap_usage", _, by simp, by rw [ht], unique_id_get _ _ _ _ _ _ _⟩
    · exact ⟨"wifi_signal", _, by simp, by rw [ht], unique_id_get _ _ _ _ _ _ _⟩

/-- Witness of C14: the `runout` sensor of the scenario configuration. -/
theorem unique_id_matches_config_topic_witness :
    (publishHASensorConfig "runout" "Filament Runout" "" "" "mdi:printer-3d-nozzle-alert"
        (exampleSession [])).out =
      [BrokerCall.publish "homeassistant/sensor/dev1_runout/config"
        (serializeJson (haSensorDoc "homeassistant" "dev1" "runout" "Filament Runout" "" ""
          "mdi:printer-3d-nozzle-alert")) true] ∧
    (haSensorDoc "homeassistant" "dev1" "runout" "Filament Runout" "" ""
        "mdi:printer-3d-nozzle-alert").get "unique_id" = some (JsonVariant.str "dev1_runout") :=
  ⟨(((unique_id_matches_config_topic (exampleSession []) (by decide)).1 "runout"
      "Filament Runout" "" "" "mdi:printer-3d-nozzle-alert").1).trans (by rfl),
   (((unique_id_matches_config_topic (exampleSession []) (by decide)).1 "runout"
      "Filament Runout" "" "" "mdi:printer-3d-nozzle-alert").2).trans (by rfl)⟩

/-- C15, as stated, fails: the document of the movement sensor has the key
`default_entity_id`, between `availability_topic` and `entity_category`, which
the listed fields do not include. -/
theorem discovery_keys_differ_from_listed :
    JsonObject.keys (haSensorDoc "homeassistant" "dev1" "movement" "Movement Sensor" "" ""
        "mdi:motion-sensor")
      = ["name", "state_topic", "value_template", "unique_id", "state_class",
         "availability_topic", "default_entity_id", "entity_category", "device", "icon"] ∧
    JsonObject.keys (haSensorDoc "homeassistant" "dev1" "movement" "Movement Sensor" "" ""
        "mdi:motion-sensor")
      ≠ specDiscoveryKeys "" "" "mdi:motion-sensor" := by
  decide

/-- C15, amended: for every descriptor and configuration the members of the
discovery document are, in this order and with no other key: `device_class`
(only if non-empty), `name`, `state_topic`, `unit_of_measurement` (only if
non-empty), `value_template`, `unique_id`, `state_class` = `measurement`,
`availability_topic`, `default_entity_id` = `sensor.<clientId>_<metric>`,
`entity_category` = `diagnostic`, `device` with name = client id, model,
manufacturer and identifiers = [client id], `icon` (only if non-empty). -/
theorem discovery_document_members (tp id m f d u i : String) :
    haSensorDoc tp id m f d u i =
      (if d ≠ "" then [("device_class", JsonVariant.str d)] else []) ++
      [("name", JsonVariant.str f),
       ("state_topic", JsonVariant.str (tp ++ "/sensor/" ++ id ++ "_" ++ m ++ "/state"))] ++
      (if u ≠ "" then [("unit_of_measurement", JsonVariant.str u)] else []) ++
      [("value_template", JsonVariant.str "\x7b\x7b value_json.value\x7d\x7d"),
       ("unique_id", JsonVariant.str (id ++ "_" ++ m)),
       ("state_class", JsonVariant.str "measurement"),
       ("availability_topic", JsonVariant.str (tp ++ "/" ++ id ++ "_death")),
       ("default_entity_id", JsonVariant.str ("sensor." ++ id ++ "_" ++ m)),
       ("entity_category", JsonVariant.str "diagnostic"),
       ("device", JsonVariant.obj
          [("name", JsonVariant.str id), ("model", JsonVariant.str "CC SFS"),
           ("manufacturer", JsonVariant.str "Elegoo"),
           ("identifiers", JsonVariant.arr [JsonVariant.str id])])] ++
      (if i ≠ "" then [("icon", JsonVariant.str i)] else []) ∧
    JsonObject.keys (haSensorDoc tp id m f d u i) =
      (if d ≠ "" then ["device_class"] else []) ++
      ["name", "state_topic"] ++
      (if u ≠ "" then ["unit_of_measurement"] else []) ++
      ["value_template", "unique_id", "state_class", "availability_topic", "default_entity_id",
       "entity_category", "device"] ++
      (if i ≠ "" then ["icon"] else []) ∧
    (∀ s : Sim, s.self.topicPrefix = tp → s.self.clientId = id → connected s = true →
      (publishHASensorConfig m f d u i s).out = s.out ++
        [BrokerCall.publish (configTopic tp id m) (serializeJson (haSensorDoc tp id m f d u i))
          true]) := by
  refine ⟨haSensorDoc_eq tp id m f d u i, ?_, ?_⟩
  · rw [haSensorDoc_eq]
    by_cases h : d = "" <;> by_cases h2 : u = "" <;> by_cases h3 : i = "" <;>
      simp [JsonObject.keys, h, h2, h3]
  · intro s htp hid hl
    simp only [connected] at hl
    simp [publishHASensorConfig, connected, hl, publish, htp, hid]

/-- Witness of amended C15: the payload of the movement sensor of the scenario
configuration, as published. -/
theorem discovery_document_members_witness :
    (publishHASensorConfig "movement" "Movement Sensor" "" "" "mdi:motion-sensor"
        (exampleSession [])).out = (exampleSession []).out ++
      [BrokerCall.publish (configTopic "homeassistant" "dev1" "movement")
        (serializeJson (haSensorDoc "homeassistant" "dev1" "movement" "Movement Sensor" "" ""
          "mdi:motion-sensor")) true] :=
  (discovery_document_members "homeassistant" "dev1" "movement" "Movement Sensor" "" ""
    "mdi:motion-sensor").2.2 (exampleSession []) rfl rfl (by decide)

end MqttClient
